import Mathlib

/-!
Verification development for the easegress plugin-pipeline executor
(`pkg/model/pipeline.go`).

The pipeline driver, plugin invocation, stop protocol, stat updaters and
hot-update listener are embedded from the source.  The task object, the
cancellation wrappers and the registry live outside the packaged sources;
they are modelled from the specification (each such definition says so in
its doc comment).  Machine integers (`uint32`, `uint64`) are modelled as
`Nat`; the only operations the source performs on them are load, store,
compare-and-swap and comparison, none of which can overflow here.
-/

namespace Easegress

/-- Modelled from the spec: task status set
{Pending, Running, ResponseImmediately, Finishing, Finished}
(`task.Pending`, … in the `task` package, not under the packaged sources). -/
inductive TaskStatus
  | pending
  | running
  | responseImmediately
  | finishing
  | finished
deriving DecidableEq, Repr

/-- Modelled from the spec: cancellation reason tags
`task.CanceledByPipelineStopped`, `task.CanceledByPipelinePreempted`,
`task.CanceledByPluginUpdated`. -/
inductive CancelReason
  | pipelineStopped
  | pipelinePreempted
  | pluginUpdated
deriving DecidableEq, Repr

/-- Task error values.  `pluginFailure` stands for an error returned by a
plugin's `Run` (identified by an abstract id), `resolveFailure` for a
registry-lookup error, `canceled` for the error a cancellation wrapper
attaches. -/
inductive TaskErr
  | pluginFailure (id : Nat)
  | resolveFailure (id : Nat)
  | canceled (r : CancelReason)
deriving DecidableEq, Repr

/-- Modelled from the spec: the observable state of the task threaded through
the pipeline (status, error, result code).  The source wraps one inner task
in up to three cancel-decorators that all forward reads to the inner task;
the model flattens the wrapper stack into a single record, which is faithful
because all decorators of one driver iteration decorate the same inner task. -/
structure TaskState where
  status : TaskStatus
  err : Option TaskErr
  resultCode : Nat
deriving DecidableEq, Repr

/-- Modelled from the spec: `newTask()` creates a fresh task in `Pending`. -/
def newTask : TaskState := ⟨.pending, none, 0⟩

/-- Modelled from the spec: `tsk.start()` transitions Pending → Running. -/
def taskStart (t : TaskState) : TaskState := { t with status := .running }

/-- Modelled from the spec: `tsk.finish(t)` is terminal and yields Finished. -/
def taskFinish (t : TaskState) : TaskState := { t with status := .finished }

/-- Modelled from the spec: `t.SetError(err, code)` attaches an error with a
result code; the task moves to `ResponseImmediately` (the spec's
"the task may be in a recoverable state") unless it is already terminal. -/
def taskSetError (t : TaskState) (e : TaskErr) (code : Nat) : TaskState :=
  if t.status = .finished then t
  else ⟨.responseImmediately, some e, code⟩

/-- Modelled from the spec: a triggered cancel wrapper "atomically marks the
wrapped task with the named cancel reason and transitions its status to
`Finishing` (unless already terminal)". -/
def taskCancel (t : TaskState) (r : CancelReason) : TaskState :=
  if t.status = .finished then t
  else ⟨.finishing, some (.canceled r), t.resultCode⟩

/-- Modelled from the spec: `tsk.clearError(originalCode)` clears the
cancellation error from the parent task, restoring `originalCode`, so the
driver re-enters the same plugin index with the task runnable again. -/
def taskClearError (_t : TaskState) (originalCode : Nat) : TaskState :=
  ⟨.running, none, originalCode⟩

/-- Modelled from the spec: `tsk.recover(name, type, targetStatus, t)`
reports whether a recovery applies; on success the task resumes at the
target status with the error discharged, on failure it is untouched.
The success of recovery is an oracle supplied by the environment. -/
def taskRecover (t : TaskState) (ok : Bool) (target : TaskStatus) : TaskState :=
  if ok then { t with status := target, err := none } else t

/-- Plugin type `plugins.PluginType`: the driver only distinguishes `SourcePlugin`
(preemptible) from everything else. -/
inductive PluginType
  | sourcePlugin
  | processPlugin
deriving DecidableEq, Repr

/-- The values a cancel slot (`rerunCancel`, `stopCancel`, `scheduleCancel`)
can hold: `NoOpCancelFunc` (modelled from the spec: a function doing
nothing), or one of the three closures the source stores —
the preempt closure of `runPlugin` (sets the local `preempted` flag, then
cancels with `CanceledByPipelinePreempted`), the rerun closure of
`runPlugin` (sets `rerun`, then cancels with `CanceledByPluginUpdated`),
and the stop closure installed by `Run` (cancels with
`CanceledByPipelineStopped`). -/
inductive CancelSlot
  | noOp
  | preemptClosure
  | rerunClosure
  | stopClosure
deriving DecidableEq, Repr

/-- The constant `http.StatusServiceUnavailable`. -/
def httpStatusServiceUnavailable : Nat := 503

/-- Record `statisticsData` (pipeline.go lines 18-21), with timestamps as `Nat`. -/
structure statisticsData where
  startAt : Nat
  finishAt : Nat
  successful : Bool
deriving DecidableEq, Repr

/-- Record `pluginStatisticsData` (pipeline.go lines 23-26). -/
structure pluginStatisticsData where
  stat : statisticsData
  pluginName : String
deriving DecidableEq, Repr

/-- Capacity of the two stat channels (pipeline.go lines 67-68). -/
def statChanCap : Nat := 1024

/-- Non-blocking send on `pipelineAndTaskStatChan`
(`select { case ch <- data: default: }`): append when the buffer has room,
silently drop otherwise. -/
def offerStat (c : List statisticsData) (d : statisticsData) : List statisticsData :=
  if c.length < statChanCap then c ++ [d] else c

/-- Non-blocking send on `pluginStatChan`. -/
def offerPluginStat (c : List pluginStatisticsData) (d : pluginStatisticsData) :
    List pluginStatisticsData :=
  if c.length < statChanCap then c ++ [d] else c

/-- Ghost trace of the calls the pipeline makes on its external
collaborators (registry, parent task recovery). -/
inductive ExtCall
  | releaseCall (name : String)
  | dismissCall (name : String)
  | recoverCall (name : String) (ty : PluginType) (target : TaskStatus) (t : TaskState)
deriving DecidableEq, Repr

/-- The pipeline's mutable state (the fields of `Pipeline`,
pipeline.go lines 28-43, that the embedded operations touch).  The three
cancel slots are `Option CancelSlot`, `none` standing for a Go `nil`
function value; the source never stores `nil`, which is what the non-nil
invariant asserts.  `doneClosed` models the `done` channel being closed;
`trace` is ghost instrumentation recording external calls. -/
structure PipelineState where
  started : Nat
  stopped : Nat
  rerunCancel : Option CancelSlot
  stopCancel : Option CancelSlot
  scheduleCancel : Option CancelSlot
  runningPluginName : String
  runningPluginGeneration : Nat
  pipelineAndTaskStatChan : List statisticsData
  pluginStatChan : List pluginStatisticsData
  doneClosed : Bool
  trace : List ExtCall
deriving DecidableEq, Repr

/-- The pipeline state built by `GetPipelineInstance`
(pipeline.go lines 59-73): both flags zero, all three cancel slots
`NoOpCancelFunc`, running-plugin identity at its zero value, empty
channels. -/
def initialPipelineState : PipelineState :=
  { started := 0
    stopped := 0
    rerunCancel := some .noOp
    stopCancel := some .noOp
    scheduleCancel := some .noOp
    runningPluginName := ""
    runningPluginGeneration := 0
    pipelineAndTaskStatChan := []
    pluginStatChan := []
    doneClosed := false
    trace := [] }

/-- The context a plugin invocation runs in: pipeline state, the (flattened)
wrapped task, and the two local flags of `runPlugin` that the stored
closures mutate. -/
structure RunCtx where
  ps : PipelineState
  t : TaskState
  preempted : Bool
  rerun : Bool
deriving DecidableEq, Repr

/-- Invoking the function held in a cancel slot (the bodies of
`NoOpCancelFunc` and of the closures built at pipeline.go
lines 119, 250-253 and 261-264). -/
def invokeSlot : CancelSlot → RunCtx → RunCtx
  | .noOp, c => c
  | .preemptClosure, c =>
      { c with preempted := true, t := taskCancel c.t .pipelinePreempted }
  | .rerunClosure, c =>
      { c with rerun := true, t := taskCancel c.t .pluginUpdated }
  | .stopClosure, c =>
      { c with t := taskCancel c.t .pipelineStopped }

/-- Calling through an `Option CancelSlot`.  A `none` slot is a Go `nil`
function whose call would panic; the non-nil invariant makes this
unreachable, and the model leaves the state unchanged there. -/
def fireSlot (o : Option CancelSlot) (c : RunCtx) : RunCtx :=
  match o with
  | some s => invokeSlot s c
  | none => c

/-- The body of the hot-update listener `cancelAndRerunRunningPlugin` for
one received notice (pipeline.go lines 325-337): return without effect
unless the notice targets the currently running plugin name and the running
generation is not newer than the notice's generation; otherwise invoke
`rerunCancel`. -/
def handleUpdateNotice (noticeName : String) (noticeGen : Nat) (c : RunCtx) : RunCtx :=
  if c.ps.runningPluginName ≠ noticeName ∨ c.ps.runningPluginGeneration > noticeGen then c
  else fireSlot c.ps.rerunCancel c

/-- One intervention interleaved with `instance.Run`: either `Stop`
reaching its cancel call (pipeline.go lines 208-224: CAS `stopped` 0→1,
then invoke `scheduleCancel` or `stopCancel`), or the hot-update listener
processing a notice, or the plugin itself attaching an error to its task. -/
inductive RunAction
  | stopCall (scheduled : Bool)
  | updateNotice (plugin : String) (gen : Nat)
  | setTaskError (id code : Nat)
deriving DecidableEq, Repr

/-- Effect of one interleaved intervention. -/
def applyRunAction : RunAction → RunCtx → RunCtx
  | .stopCall scheduled, c =>
      if c.ps.stopped = 1 then c
      else
        let c := { c with ps := { c.ps with stopped := 1 } }
        fireSlot (if scheduled then c.ps.scheduleCancel else c.ps.stopCancel) c
  | .updateNotice n g, c => handleUpdateNotice n g c
  | .setTaskError i code, c =>
      { c with t := taskSetError c.t (.pluginFailure i) code }

/-- The environment's description of one `instance.Run` call: the
interventions interleaved with it (in order), the error value it returns
(`none` = `nil`), and the two `common.Now()` readings around it. -/
structure RunEvent where
  actions : List RunAction
  retErr : Option Nat
  startAt : Nat
  finishAt : Nat
deriving DecidableEq, Repr

/-- pipeline.go lines 242-267: install the preempt closure in
`scheduleCancel` when the plugin is a source plugin, install the rerun
closure in `rerunCancel`, and publish the running plugin's name and
generation. -/
def runPluginSetup (ps : PipelineState) (instName : String) (ty : PluginType)
    (gen : Nat) : PipelineState :=
  let ps := if ty = .sourcePlugin then { ps with scheduleCancel := some .preemptClosure } else ps
  { ps with
      rerunCancel := some .rerunClosure
      runningPluginGeneration := gen
      runningPluginName := instName }

/-- pipeline.go line 270: `instance.Run(p.ctx, t)` together with the
interventions interleaved with it, applied in order. -/
def runPluginExec (ev : RunEvent) (ps : PipelineState) (t : TaskState) : RunCtx :=
  ev.actions.foldl (fun c a => applyRunAction a c) ⟨ps, t, false, false⟩

/-- pipeline.go lines 273-276: clear the running-plugin identity and reset
`rerunCancel` and `scheduleCancel` to `NoOpCancelFunc`. -/
def runPluginTeardown (ps : PipelineState) : PipelineState :=
  { ps with
      runningPluginName := ""
      runningPluginGeneration := 0
      rerunCancel := some .noOp
      scheduleCancel := some .noOp }

/-- pipeline.go lines 278-292: when neither `rerun` nor `preempted` fired
and the pipeline is not stopped, offer one per-plugin stat record on
`pluginStatChan` (drop-on-full); `successful` is
`err == nil && t.Error() == nil`. -/
def runPluginStats (ev : RunEvent) (instName : String) (c : RunCtx) : PipelineState :=
  if c.rerun = false ∧ c.preempted = false ∧ c.ps.stopped = 0 then
    { c.ps with pluginStatChan :=
        (offerPluginStat c.ps.pluginStatChan
          ⟨⟨ev.startAt, ev.finishAt, ev.retErr.isNone && c.t.err.isNone⟩, instName⟩) }
  else c.ps

/-- pipeline.go lines 294-312: on a non-nil plugin error, either clear the
cancellation error (rerun), or — unless preempted — attach the plugin's
error at 503 when the task carries none; and dismiss the instance when the
pipeline is not stopped and the run was not preempted. -/
def runPluginErrHandling (ev : RunEvent) (instName : String) (originalCode : Nat)
    (c : RunCtx) : PipelineState × TaskState :=
  match ev.retErr with
  | none => (c.ps, c.t)
  | some eid =>
      let t :=
        if c.rerun then taskClearError c.t originalCode
        else if !c.preempted then
          (if c.t.err = none then
            taskSetError c.t (.pluginFailure eid) httpStatusServiceUnavailable
          else c.t)
        else c.t
      let ps :=
        if c.ps.stopped = 0 ∧ c.preempted = false then
          { c.ps with trace := c.ps.trace ++ [.dismissCall instName] }
        else c.ps
      (ps, t)

/-- What `runPlugin` produces: the new pipeline state, the task, and the
`(success, preempted, rerun)` triple it returns. -/
structure RunResult where
  ps : PipelineState
  t : TaskState
  success : Bool
  preempted : Bool
  rerun : Bool
deriving DecidableEq, Repr

/-- The context as `instance.Run` returns (pipeline.go line 270): the
wrapped task, the two local flags and the pipeline state, after the
interventions interleaved with the run. -/
def runPluginCtx (ev : RunEvent) (ps : PipelineState) (instName : String)
    (ty : PluginType) (gen : Nat) (input : TaskState) : RunCtx :=
  runPluginExec ev (runPluginSetup ps instName ty gen) input

/-- Method `(*Pipeline).runPlugin` (pipeline.go lines 239-315), as the composition
of its phases; `success := err == nil`. -/
def runPlugin (ev : RunEvent) (ps : PipelineState) (instName : String)
    (ty : PluginType) (gen : Nat) (input : TaskState) : RunResult :=
  let originalCode := input.resultCode
  let c := runPluginCtx ev ps instName ty gen input
  let c := { c with ps := runPluginTeardown c.ps }
  let c := { c with ps := runPluginStats ev instName c }
  let pr := runPluginErrHandling ev instName originalCode c
  ⟨pr.1, pr.2, ev.retErr.isNone, c.preempted, c.rerun⟩

/-- The registry's answer to `getPluginInstance(pluginNames[i], true)`
for one driver iteration: either a live instance (its name, type and
generation) or a lookup error. -/
inductive ResolveResult
  | ok (name : String) (ty : PluginType) (gen : Nat)
  | fail (errId : Nat)
deriving DecidableEq, Repr

/-- The environment of one driver-loop iteration: the registry's answer,
the description of the `instance.Run` call (used only when the dispatch
reaches it) and the oracle for `tsk.recover`. -/
structure IterEvent where
  resolve : ResolveResult
  run : RunEvent
  recoverOk : Bool
deriving DecidableEq, Repr

/-- The post-invocation status dispatch (pipeline.go lines 149-166):
on `ResponseImmediately`, finish the task when the pipeline is stopping,
otherwise — when an instance is present — ask the parent task to recover
with `(instance.Name(), instance.Type(), task.Running, t)` and finish on
failed recovery; on `Finishing`, finish the task.  `inst` is `none` when
`getPluginInstance` failed (`instance == nil`). -/
def dispatchAfter (inst : Option (String × PluginType)) (recoverOk : Bool)
    (ps : PipelineState) (t : TaskState) : PipelineState × TaskState :=
  match t.status with
  | .responseImmediately =>
      if ps.stopped = 1 then (ps, taskFinish t)
      else
        match inst with
        | some (nm, ty) =>
            let ps := { ps with trace := ps.trace ++ [.recoverCall nm ty .running t] }
            if recoverOk then (ps, taskRecover t true .running)
            else (ps, taskFinish t)
        | none => (ps, t)
  | .finishing => (ps, taskFinish t)
  | _ => (ps, t)

/-- The driver loop of `Run` (pipeline.go lines 126-171).  One `IterEvent`
is consumed per iteration (each iteration calls `getPluginInstance`
exactly once); an exhausted event list with the loop still live returns
`none` (the environment left the execution undetermined).  `preempted`
is the loop-carried value of the last invocation's flag; the result is
the pipeline state, the task, and that flag as the loop leaves them. -/
def driverLoop (plugins : List String) : List IterEvent → Nat → Bool →
    PipelineState → TaskState → Option (PipelineState × TaskState × Bool)
  | events, i, preempted, ps, t =>
    if i < plugins.length ∧ ps.stopped = 0 then
      match events with
      | [] => none
      | ev :: rest =>
        match ev.resolve with
        | .fail eid =>
            let t1 := taskSetError t (.resolveFailure eid) httpStatusServiceUnavailable
            let d := dispatchAfter none ev.recoverOk ps t1
            if d.2.status = .finished then some (d.1, d.2, preempted)
            else driverLoop plugins rest (i + 1) preempted d.1 d.2
        | .ok nm ty gen =>
            if t.status = .pending ∨ t.status = .running then
              let t1 := if t.status = .pending then taskStart t else t
              let r := runPlugin ev.run ps nm ty gen t1
              let ps2 := { r.ps with trace := r.ps.trace ++ [.releaseCall nm] }
              if !r.success && r.rerun then
                driverLoop plugins rest i r.preempted ps2 r.t
              else
                let d := dispatchAfter (some (nm, ty)) ev.recoverOk ps2 r.t
                if d.2.status = .finished then some (d.1, d.2, r.preempted)
                else driverLoop plugins rest (i + 1) r.preempted d.1 d.2
            else
              let d := dispatchAfter (some (nm, ty)) ev.recoverOk ps t
              if d.2.status = .finished then some (d.1, d.2, preempted)
              else driverLoop plugins rest (i + 1) preempted d.1 d.2
    else some (ps, t, preempted)

/-- The error message of `Run` when the CAS on `started` loses. -/
def alreadyStartedMsg : String := "pipeline is already started"

/-- Method `(*Pipeline).Run` (pipeline.go lines 108-197): return `nil` at once
when `stopped == 1`; return the "already started" error when the CAS of
`started` from 0 to 1 fails; otherwise install the stop closure, drive the
loop over the configured plugin names, finish the task if needed, offer
the pipeline-level stat record unless preempted or stopped, reset
`started` and close `done` when stopping.  `startAt`/`finishAt` are the
two `common.Now()` readings; the overall result is `none` when the
environment script is too short to determine the execution. -/
def pipelineRun (plugins : List String) (events : List IterEvent)
    (startAt finishAt : Nat) (ps : PipelineState) :
    Option (PipelineState × Option String) :=
  if ps.stopped = 1 then some (ps, none)
  else if ps.started ≠ 0 then some (ps, some alreadyStartedMsg)
  else
    match driverLoop plugins events 0 false
        { ps with started := 1, stopCancel := some .stopClosure } newTask with
    | none => none
    | some (ps1, t1, preempted) =>
        let t2 := if t1.status ≠ .finished then taskFinish t1 else t1
        let ps2 :=
          if preempted = false ∧ ps1.stopped = 0 then
            { ps1 with pipelineAndTaskStatChan :=
                (offerStat ps1.pipelineAndTaskStatChan
                  ⟨startAt, finishAt, t2.err.isNone⟩) }
          else ps1
        let ps3 := { ps2 with started := 0 }
        let ps4 := if ps3.stopped = 1 then { ps3 with doneClosed := true } else ps3
        some (ps4, none)

/-! ### Helper lemmas about the invocation phases -/

/-- Fields of the pipeline state that an interleaved intervention never
touches (everything except `stopped`). -/
def FieldsAgree (p q : PipelineState) : Prop :=
  p.rerunCancel = q.rerunCancel ∧ p.scheduleCancel = q.scheduleCancel ∧
  p.stopCancel = q.stopCancel ∧ p.runningPluginName = q.runningPluginName ∧
  p.runningPluginGeneration = q.runningPluginGeneration ∧
  p.pluginStatChan = q.pluginStatChan ∧
  p.pipelineAndTaskStatChan = q.pipelineAndTaskStatChan ∧
  p.trace = q.trace ∧ p.started = q.started ∧ p.doneClosed = q.doneClosed

theorem fieldsAgree_refl (p : PipelineState) : FieldsAgree p p :=
  ⟨rfl, rfl, rfl, rfl, rfl, rfl, rfl, rfl, rfl, rfl⟩

theorem fieldsAgree_trans {p q r : PipelineState}
    (h1 : FieldsAgree p q) (h2 : FieldsAgree q r) : FieldsAgree p r := by
  obtain ⟨a1, a2, a3, a4, a5, a6, a7, a8, a9, a10⟩ := h1
  obtain ⟨b1, b2, b3, b4, b5, b6, b7, b8, b9, b10⟩ := h2
  exact ⟨a1.trans b1, a2.trans b2, a3.trans b3, a4.trans b4, a5.trans b5,
    a6.trans b6, a7.trans b7, a8.trans b8, a9.trans b9, a10.trans b10⟩

theorem invokeSlot_ps (s : CancelSlot) (c : RunCtx) : (invokeSlot s c).ps = c.ps := by
  cases s <;> rfl

theorem fireSlot_ps (o : Option CancelSlot) (c : RunCtx) : (fireSlot o c).ps = c.ps := by
  cases o with
  | none => rfl
  | some s => exact invokeSlot_ps s c

theorem handleUpdateNotice_ps (n : String) (g : Nat) (c : RunCtx) :
    (handleUpdateNotice n g c).ps = c.ps := by
  unfold handleUpdateNotice
  split
  · rfl
  · exact fireSlot_ps _ _

/-- An intervention leaves the pipeline state unchanged except for possibly
setting `stopped` to 1 (a `Stop` call winning its CAS). -/
theorem applyRunAction_ps (a : RunAction) (c : RunCtx) :
    (applyRunAction a c).ps = c.ps ∨
    (applyRunAction a c).ps = { c.ps with stopped := 1 } := by
  cases a with
  | stopCall s =>
      by_cases h : c.ps.stopped = 1
      · left
        simp only [applyRunAction, if_pos h]
      · right
        simp only [applyRunAction, if_neg h]
        exact fireSlot_ps _ _
  | updateNotice n g => exact Or.inl (handleUpdateNotice_ps n g c)
  | setTaskError i code => exact Or.inl rfl

theorem applyRunAction_fields (a : RunAction) (c : RunCtx) :
    FieldsAgree (applyRunAction a c).ps c.ps := by
  rcases applyRunAction_ps a c with h | h <;> rw [h]
  · exact fieldsAgree_refl _
  · exact ⟨rfl, rfl, rfl, rfl, rfl, rfl, rfl, rfl, rfl, rfl⟩

theorem execFold_fields (acts : List RunAction) (c : RunCtx) :
    FieldsAgree (acts.foldl (fun c a => applyRunAction a c) c).ps c.ps := by
  induction acts generalizing c with
  | nil => exact fieldsAgree_refl _
  | cons a rest ih =>
      exact fieldsAgree_trans (ih (applyRunAction a c)) (applyRunAction_fields a c)

/-- The call `instance.Run` together with its interventions touches, of the pipeline
state, at most `stopped`. -/
theorem runPluginExec_fields (ev : RunEvent) (ps : PipelineState) (t : TaskState) :
    FieldsAgree (runPluginExec ev ps t).ps ps :=
  execFold_fields ev.actions ⟨ps, t, false, false⟩

/-- No cancel slot currently holds the preempt closure. -/
def NoPreemptSlot (p : PipelineState) : Prop :=
  p.rerunCancel ≠ some .preemptClosure ∧ p.stopCancel ≠ some .preemptClosure ∧
  p.scheduleCancel ≠ some .preemptClosure

theorem invokeSlot_preempted {s : CancelSlot} (c : RunCtx) (h : s ≠ .preemptClosure) :
    (invokeSlot s c).preempted = c.preempted := by
  cases s <;> simp_all [invokeSlot]

theorem fireSlot_preempted {o : Option CancelSlot} (c : RunCtx)
    (h : o ≠ some .preemptClosure) : (fireSlot o c).preempted = c.preempted := by
  cases o with
  | none => rfl
  | some s =>
      refine invokeSlot_preempted c ?_
      intro hs
      exact h (by rw [hs])

/-- The `preempted` flag can only be set by invoking the preempt closure:
when no slot holds it, interventions leave the flag unchanged. -/
theorem applyRunAction_preempted (a : RunAction) (c : RunCtx) (h : NoPreemptSlot c.ps) :
    (applyRunAction a c).preempted = c.preempted := by
  cases a with
  | stopCall s =>
      by_cases hs : c.ps.stopped = 1
      · simp only [applyRunAction, if_pos hs]
      · simp only [applyRunAction, if_neg hs]
        cases s with
        | true => exact fireSlot_preempted _ h.2.2
        | false => exact fireSlot_preempted _ h.2.1
  | updateNotice n g =>
      show (handleUpdateNotice n g c).preempted = c.preempted
      unfold handleUpdateNotice
      split
      · rfl
      · exact fireSlot_preempted _ h.1
  | setTaskError i code => rfl

theorem noPreemptSlot_of_fieldsAgree {p q : PipelineState}
    (hf : FieldsAgree p q) (h : NoPreemptSlot q) : NoPreemptSlot p := by
  refine ⟨?_, ?_, ?_⟩
  · rw [hf.1]; exact h.1
  · rw [hf.2.2.1]; exact h.2.1
  · rw [hf.2.1]; exact h.2.2

theorem execFold_preempted (acts : List RunAction) (c : RunCtx) (h : NoPreemptSlot c.ps) :
    (acts.foldl (fun c a => applyRunAction a c) c).preempted = c.preempted := by
  induction acts generalizing c with
  | nil => rfl
  | cons a rest ih =>
      have hps := applyRunAction_fields a c
      have h2 := ih (applyRunAction a c) (noPreemptSlot_of_fieldsAgree hps h)
      rw [List.foldl_cons, h2, applyRunAction_preempted a c h]

/-! ### C2: hot-update listener condition -/

/-- C2: the hot-update listener invokes `rerunCancel` for a received notice
exactly when the notice's plugin name equals the currently running plugin
name and the running generation is ≤ the notice's generation; in
particular a running generation strictly above the notice's generation
triggers nothing, and when the condition holds while the rerun closure is
installed, the `rerun` flag is set. -/
theorem C2_listener_rerun_condition (noticeName : String) (noticeGen : Nat) (c : RunCtx) :
    (handleUpdateNotice noticeName noticeGen c =
      if c.ps.runningPluginName = noticeName ∧ c.ps.runningPluginGeneration ≤ noticeGen
      then fireSlot c.ps.rerunCancel c else c) ∧
    (noticeGen < c.ps.runningPluginGeneration →
      handleUpdateNotice noticeName noticeGen c = c) ∧
    (c.ps.rerunCancel = some .rerunClosure →
      c.ps.runningPluginName = noticeName →
      c.ps.runningPluginGeneration ≤ noticeGen →
      (handleUpdateNotice noticeName noticeGen c).rerun = true) := by
  refine ⟨?_, ?_, ?_⟩
  · by_cases h : c.ps.runningPluginName = noticeName ∧
        c.ps.runningPluginGeneration ≤ noticeGen
    · rw [if_pos h]
      unfold handleUpdateNotice
      rw [if_neg]
      push_neg
      exact ⟨h.1, h.2⟩
    · rw [if_neg h]
      unfold handleUpdateNotice
      rw [if_pos]
      by_contra hcon
      push_neg at hcon
      exact h ⟨hcon.1, hcon.2⟩
  · intro hg
    unfold handleUpdateNotice
    rw [if_pos (Or.inr hg)]
  · intro hslot hname hgen
    unfold handleUpdateNotice
    rw [if_neg (by push_neg; exact ⟨hname, hgen⟩), hslot]
    rfl

/-- Witness for C2 at a concrete mid-run context. -/
def c2ctx : RunCtx :=
  ⟨{ initialPipelineState with
      runningPluginName := "A", runningPluginGeneration := 3,
      rerunCancel := some .rerunClosure },
    ⟨.running, none, 0⟩, false, false⟩

theorem C2_listener_rerun_condition_witness :
    (2 < c2ctx.ps.runningPluginGeneration → handleUpdateNotice "A" 2 c2ctx = c2ctx) ∧
    (handleUpdateNotice "A" 2 c2ctx = c2ctx) ∧
    (handleUpdateNotice "A" 5 c2ctx).rerun = true := by
  refine ⟨(C2_listener_rerun_condition "A" 2 c2ctx).2.1, ?_, ?_⟩
  · exact (C2_listener_rerun_condition "A" 2 c2ctx).2.1 (by decide)
  · exact (C2_listener_rerun_condition "A" 5 c2ctx).2.2 (by decide) (by decide) (by decide)

/-! ### C1: Run's return value -/

/-- C1: whenever `Run` returns, its error is non-nil exactly when the
pipeline was not stopped at entry and the CAS of `started` from 0 to 1
failed, and that error is "pipeline is already started"; in particular a
pipeline stopped at entry returns immediately, without error and without
touching any state. -/
theorem C1_run_error_iff_already_started (plugins : List String)
    (events : List IterEvent) (startAt finishAt : Nat) (ps : PipelineState)
    (res : PipelineState × Option String)
    (h : pipelineRun plugins events startAt finishAt ps = some res) :
    (res.2 = if ps.stopped ≠ 1 ∧ ps.started ≠ 0 then some alreadyStartedMsg else none) ∧
    (ps.stopped = 1 → res = (ps, none)) := by
  unfold pipelineRun at h
  by_cases h1 : ps.stopped = 1
  · rw [if_pos h1] at h
    obtain rfl : (ps, (none : Option String)) = res := Option.some.inj h
    refine ⟨?_, fun _ => rfl⟩
    rw [if_neg (fun hcon => hcon.1 h1)]
  · rw [if_neg h1] at h
    by_cases h2 : ps.started ≠ 0
    · rw [if_pos h2] at h
      obtain rfl : (ps, some alreadyStartedMsg) = res := Option.some.inj h
      refine ⟨?_, fun hc => absurd hc h1⟩
      rw [if_pos ⟨h1, h2⟩]
    · rw [if_neg h2] at h
      rcases hd : driverLoop plugins events 0 false
          { ps with started := 1, stopCancel := some .stopClosure } newTask with _ | trip
      · rw [hd] at h
        exact Option.noConfusion h
      · obtain ⟨tps, tt, tpre⟩ := trip
        rw [hd] at h
        have hres := Option.some.inj h
        have hnone : res.2 = none := by rw [← hres]
        refine ⟨?_, fun hc => absurd hc h1⟩
        rw [hnone, if_neg (fun hcon => h2 hcon.2)]

/-- Witness for C1: a pipeline whose `started` flag is already 1, and one
that is stopped at entry. -/
def c1ws : PipelineState := { initialPipelineState with started := 1 }

def stoppedState : PipelineState := { initialPipelineState with stopped := 1 }

theorem C1_run_error_iff_already_started_witness :
    ((some alreadyStartedMsg : Option String) =
      if c1ws.stopped ≠ 1 ∧ c1ws.started ≠ 0 then some alreadyStartedMsg else none) ∧
    ((initialPipelineState.stopped = 1 → False) ∧
      ((none : Option String) =
        if stoppedState.stopped ≠ 1 ∧ stoppedState.started ≠ 0
        then some alreadyStartedMsg else none)) := by
  refine ⟨(C1_run_error_iff_already_started [] [] 0 0 c1ws
    (c1ws, some alreadyStartedMsg) (by decide)).1, by decide, ?_⟩
  exact (C1_run_error_iff_already_started ["A"] [] 0 0 stoppedState
    (stoppedState, none) (by decide)).1

/-! ### C7: post-invocation status dispatch -/

/-- C7: after a plugin invocation (an instance is present), a task in
`ResponseImmediately` is finished when the pipeline is stopping; otherwise
recovery is attempted on the parent task with
`(instance.Name(), instance.Type(), Running, t)` — recorded on the call
trace — and a failed recovery finishes the task; a task in `Finishing` is
finished. -/
theorem C7_dispatch_response_immediately (nm : String) (ty : PluginType)
    (recoverOk : Bool) (ps : PipelineState) (t : TaskState) :
    (t.status = .responseImmediately → ps.stopped = 1 →
      dispatchAfter (some (nm, ty)) recoverOk ps t = (ps, taskFinish t)) ∧
    (t.status = .responseImmediately → ps.stopped ≠ 1 →
      (dispatchAfter (some (nm, ty)) recoverOk ps t).1.trace =
        ps.trace ++ [.recoverCall nm ty .running t] ∧
      (recoverOk = false →
        (dispatchAfter (some (nm, ty)) recoverOk ps t).2 = taskFinish t)) ∧
    (t.status = .finishing →
      dispatchAfter (some (nm, ty)) recoverOk ps t = (ps, taskFinish t)) := by
  refine ⟨?_, ?_, ?_⟩
  · intro hst hstop
    unfold dispatchAfter
    rw [hst]
    simp [hstop]
  · intro hst hstop
    unfold dispatchAfter
    rw [hst]
    simp only [beq_iff_eq, if_neg hstop]
    constructor
    · cases recoverOk <;> rfl
    · intro hro
      subst hro
      rfl
  · intro hst
    unfold dispatchAfter
    rw [hst]

theorem C7_dispatch_response_immediately_witness :
    (dispatchAfter (some ("A", .processPlugin)) false
        { initialPipelineState with stopped := 1 } ⟨.responseImmediately, none, 0⟩ =
      ({ initialPipelineState with stopped := 1 },
        taskFinish ⟨.responseImmediately, none, 0⟩)) ∧
    ((dispatchAfter (some ("A", .processPlugin)) false initialPipelineState
        ⟨.responseImmediately, none, 0⟩).1.trace =
      initialPipelineState.trace ++
        [.recoverCall "A" .processPlugin .running ⟨.responseImmediately, none, 0⟩]) ∧
    ((dispatchAfter (some ("A", .processPlugin)) false initialPipelineState
        ⟨.responseImmediately, none, 0⟩).2 = taskFinish ⟨.responseImmediately, none, 0⟩) ∧
    (dispatchAfter (some ("A", .processPlugin)) true initialPipelineState
        ⟨.finishing, none, 7⟩ =
      (initialPipelineState, taskFinish ⟨.finishing, none, 7⟩)) := by
  refine ⟨?_, ?_, ?_, ?_⟩
  · exact (C7_dispatch_response_immediately "A" .processPlugin false
      { initialPipelineState with stopped := 1 } ⟨.responseImmediately, none, 0⟩).1
      rfl rfl
  · exact ((C7_dispatch_response_immediately "A" .processPlugin false
      initialPipelineState ⟨.responseImmediately, none, 0⟩).2.1 rfl (by decide)).1
  · exact ((C7_dispatch_response_immediately "A" .processPlugin false
      initialPipelineState ⟨.responseImmediately, none, 0⟩).2.1 rfl (by decide)).2 rfl
  · exact (C7_dispatch_response_immediately "A" .processPlugin true
      initialPipelineState ⟨.finishing, none, 7⟩).2.2 rfl

/-! ### Field lemmas for the remaining phases of `runPlugin` -/

theorem runPlugin_success (ev : RunEvent) (ps : PipelineState) (nm : String)
    (ty : PluginType) (gen : Nat) (input : TaskState) :
    (runPlugin ev ps nm ty gen input).success = ev.retErr.isNone := rfl

theorem runPlugin_preempted_eq (ev : RunEvent) (ps : PipelineState) (nm : String)
    (ty : PluginType) (gen : Nat) (input : TaskState) :
    (runPlugin ev ps nm ty gen input).preempted =
      (runPluginCtx ev ps nm ty gen input).preempted := rfl

theorem runPlugin_rerun_eq (ev : RunEvent) (ps : PipelineState) (nm : String)
    (ty : PluginType) (gen : Nat) (input : TaskState) :
    (runPlugin ev ps nm ty gen input).rerun =
      (runPluginCtx ev ps nm ty gen input).rerun := rfl

theorem runPluginSetup_fields (ps : PipelineState) (nm : String) (ty : PluginType)
    (gen : Nat) :
    (runPluginSetup ps nm ty gen).stopCancel = ps.stopCancel ∧
    (runPluginSetup ps nm ty gen).stopped = ps.stopped ∧
    (runPluginSetup ps nm ty gen).trace = ps.trace ∧
    (runPluginSetup ps nm ty gen).pluginStatChan = ps.pluginStatChan ∧
    (runPluginSetup ps nm ty gen).pipelineAndTaskStatChan = ps.pipelineAndTaskStatChan ∧
    (runPluginSetup ps nm ty gen).rerunCancel = some .rerunClosure ∧
    (runPluginSetup ps nm ty gen).runningPluginName = nm ∧
    (runPluginSetup ps nm ty gen).runningPluginGeneration = gen := by
  unfold runPluginSetup
  split <;> simp

theorem runPluginStats_fields (ev : RunEvent) (nm : String) (c : RunCtx) :
    (runPluginStats ev nm c).rerunCancel = c.ps.rerunCancel ∧
    (runPluginStats ev nm c).scheduleCancel = c.ps.scheduleCancel ∧
    (runPluginStats ev nm c).stopCancel = c.ps.stopCancel ∧
    (runPluginStats ev nm c).runningPluginName = c.ps.runningPluginName ∧
    (runPluginStats ev nm c).runningPluginGeneration = c.ps.runningPluginGeneration ∧
    (runPluginStats ev nm c).stopped = c.ps.stopped ∧
    (runPluginStats ev nm c).trace = c.ps.trace ∧
    (runPluginStats ev nm c).pipelineAndTaskStatChan = c.ps.pipelineAndTaskStatChan := by
  unfold runPluginStats
  split <;> simp

theorem runPluginErrHandling_fields (ev : RunEvent) (nm : String) (oc : Nat) (c : RunCtx) :
    ((runPluginErrHandling ev nm oc c).1.rerunCancel = c.ps.rerunCancel ∧
      (runPluginErrHandling ev nm oc c).1.scheduleCancel = c.ps.scheduleCancel ∧
      (runPluginErrHandling ev nm oc c).1.stopCancel = c.ps.stopCancel ∧
      (runPluginErrHandling ev nm oc c).1.runningPluginName = c.ps.runningPluginName ∧
      (runPluginErrHandling ev nm oc c).1.runningPluginGeneration =
        c.ps.runningPluginGeneration ∧
      (runPluginErrHandling ev nm oc c).1.stopped = c.ps.stopped ∧
      (runPluginErrHandling ev nm oc c).1.pluginStatChan = c.ps.pluginStatChan ∧
      (runPluginErrHandling ev nm oc c).1.pipelineAndTaskStatChan =
        c.ps.pipelineAndTaskStatChan) := by
  unfold runPluginErrHandling
  cases ev.retErr
  · exact ⟨rfl, rfl, rfl, rfl, rfl, rfl, rfl, rfl⟩
  · by_cases hc : c.ps.stopped = 0 ∧ c.preempted = false
    · simp [hc]
    · simp [hc]

/-- After `runPlugin` the running-plugin identity is cleared, `rerunCancel`
and `scheduleCancel` hold `NoOpCancelFunc` again, and `stopCancel` is
whatever it was at entry. -/
theorem runPlugin_post_slots (ev : RunEvent) (ps : PipelineState) (nm : String)
    (ty : PluginType) (gen : Nat) (input : TaskState) :
    (runPlugin ev ps nm ty gen input).ps.rerunCancel = some .noOp ∧
    (runPlugin ev ps nm ty gen input).ps.scheduleCancel = some .noOp ∧
    (runPlugin ev ps nm ty gen input).ps.stopCancel = ps.stopCancel ∧
    (runPlugin ev ps nm ty gen input).ps.runningPluginName = "" ∧
    (runPlugin ev ps nm ty gen input).ps.runningPluginGeneration = 0 := by
  have hexec := runPluginExec_fields ev (runPluginSetup ps nm ty gen) input
  have hstats := runPluginStats_fields ev nm
    { runPluginCtx ev ps nm ty gen input with
        ps := runPluginTeardown (runPluginCtx ev ps nm ty gen input).ps }
  have herr := runPluginErrHandling_fields ev nm input.resultCode
    { runPluginCtx ev ps nm ty gen input with
        ps := runPluginStats ev nm
          { runPluginCtx ev ps nm ty gen input with
              ps := runPluginTeardown (runPluginCtx ev ps nm ty gen input).ps } }
  refine ⟨?_, ?_, ?_, ?_, ?_⟩
  · exact herr.1.trans hstats.1
  · exact (herr.2.1.trans hstats.2.1)
  · refine (herr.2.2.1.trans hstats.2.2.1).trans ?_
    show (runPluginCtx ev ps nm ty gen input).ps.stopCancel = ps.stopCancel
    exact hexec.2.2.1.trans (runPluginSetup_fields ps nm ty gen).1
  · exact herr.2.2.2.1.trans hstats.2.2.2.1
  · exact herr.2.2.2.2.1.trans hstats.2.2.2.2.1

/-! ### C6: non-source plugins are never preempted -/

/-- C6: during a run of a non-source plugin, `scheduleCancel` keeps holding
`NoOpCancelFunc` (the slot is replaced only for source plugins, and reset
to no-op after every invocation), invoking the no-op changes nothing, and
the invocation can never come back with the `preempted` flag set. -/
theorem C6_nonsource_never_preempted (ev : RunEvent) (ps : PipelineState)
    (nm : String) (ty : PluginType) (gen : Nat) (input : TaskState)
    (hty : ty ≠ .sourcePlugin)
    (hsched : ps.scheduleCancel = some .noOp)
    (hsc : ps.stopCancel ≠ some .preemptClosure) :
    (runPluginSetup ps nm ty gen).scheduleCancel = some .noOp ∧
    (runPluginCtx ev ps nm ty gen input).ps.scheduleCancel = some .noOp ∧
    (∀ c : RunCtx, invokeSlot .noOp c = c) ∧
    (runPlugin ev ps nm ty gen input).preempted = false ∧
    (runPlugin ev ps nm ty gen input).ps.scheduleCancel = some .noOp := by
  have hsetup : (runPluginSetup ps nm ty gen).scheduleCancel = some .noOp := by
    simp [runPluginSetup, hty, hsched]
  have hnp : NoPreemptSlot (runPluginSetup ps nm ty gen) := by
    refine ⟨?_, ?_, ?_⟩
    · rw [(runPluginSetup_fields ps nm ty gen).2.2.2.2.2.1]
      simp
    · rw [(runPluginSetup_fields ps nm ty gen).1]
      exact hsc
    · rw [hsetup]
      simp
  have hpre : (runPluginCtx ev ps nm ty gen input).preempted = false :=
    execFold_preempted ev.actions ⟨runPluginSetup ps nm ty gen, input, false, false⟩ hnp
  have hmid : (runPluginCtx ev ps nm ty gen input).ps.scheduleCancel = some .noOp :=
    ((runPluginExec_fields ev (runPluginSetup ps nm ty gen) input).2.1).trans hsetup
  exact ⟨hsetup, hmid, fun c => rfl,
    (runPlugin_preempted_eq ev ps nm ty gen input).trans hpre,
    (runPlugin_post_slots ev ps nm ty gen input).2.1⟩

/-- Witness state and event for C6: a scheduled `Stop` fires
`scheduleCancel` in the middle of a non-source plugin's run. -/
def c6ps : PipelineState := { initialPipelineState with stopCancel := some .stopClosure }

def c6ev : RunEvent := ⟨[.stopCall true], none, 0, 1⟩

theorem C6_nonsource_never_preempted_witness :
    (runPlugin c6ev c6ps "p" .processPlugin 1 ⟨.running, none, 0⟩).preempted = false ∧
    (runPluginCtx c6ev c6ps "p" .processPlugin 1 ⟨.running, none, 0⟩).ps.scheduleCancel =
      some .noOp := by
  have h := C6_nonsource_never_preempted c6ev c6ps "p" .processPlugin 1
    ⟨.running, none, 0⟩ (by decide) (by decide) (by decide)
  exact ⟨h.2.2.2.1, h.2.1⟩

/-! ### C3: a rerun restores the task and replays the same index -/

/-- C3: when a plugin run returns an error with the rerun flag set, the
cancellation error is cleared from the parent task and the pre-run result
code is restored (the task is back to `Running` with no error), and the
driver decrements the loop index and continues, so the loop re-enters the
same plugin index on the rest of the schedule (a fresh instance is
resolved there). -/
theorem C3_rerun_restores_and_replays (plugins : List String) (ev : IterEvent)
    (rest : List IterEvent) (i : Nat) (pre : Bool) (ps : PipelineState)
    (t : TaskState) (nm : String) (ty : PluginType) (gen : Nat) (r : RunResult)
    (hi : i < plugins.length) (hs : ps.stopped = 0)
    (hres : ev.resolve = .ok nm ty gen)
    (hst : t.status = .pending ∨ t.status = .running)
    (hr : runPlugin ev.run ps nm ty gen
      (if t.status = .pending then taskStart t else t) = r)
    (herr : ev.run.retErr ≠ none) (hre : r.rerun = true) :
    r.t = ⟨.running, none, t.resultCode⟩ ∧
    driverLoop plugins (ev :: rest) i pre ps t =
      driverLoop plugins rest i r.preempted
        { r.ps with trace := r.ps.trace ++ [.releaseCall nm] } r.t := by
  subst hr
  have hno : ev.run.retErr.isNone = false := by
    cases h : ev.run.retErr
    · exact absurd h herr
    · rfl
  constructor
  · cases heid : ev.run.retErr with
    | none => exact absurd heid herr
    | some eid =>
        have hre' : (runPluginCtx ev.run ps nm ty gen
            (if t.status = .pending then taskStart t else t)).rerun = true := hre
        have hrc : (if t.status = .pending then taskStart t else t).resultCode
            = t.resultCode := by
          split <;> rfl
        simp only [runPlugin]
        simp [runPluginErrHandling, heid, hre', taskClearError, hrc]
  · simp [driverLoop, hres, hi, hs, hst, runPlugin_success, hre, hno]

/-- Witness scenario for C3: a source plugin canceled by a matching
hot-update notice returns an error; the rerun replays index 0. -/
def c3ps : PipelineState := { initialPipelineState with stopCancel := some .stopClosure }

def c3iev : IterEvent := ⟨.ok "A" .sourcePlugin 1, ⟨[.updateNotice "A" 1], some 3, 0, 1⟩, false⟩

theorem C3_rerun_restores_and_replays_witness :
    (runPlugin c3iev.run c3ps "A" .sourcePlugin 1 (taskStart newTask)).t =
      ⟨.running, none, 0⟩ ∧
    driverLoop ["A"] [c3iev] 0 false c3ps newTask =
      driverLoop ["A"] [] 0
        (runPlugin c3iev.run c3ps "A" .sourcePlugin 1 (taskStart newTask)).preempted
        { (runPlugin c3iev.run c3ps "A" .sourcePlugin 1 (taskStart newTask)).ps with
            trace := (runPlugin c3iev.run c3ps "A" .sourcePlugin 1
              (taskStart newTask)).ps.trace ++ [.releaseCall "A"] }
        (runPlugin c3iev.run c3ps "A" .sourcePlugin 1 (taskStart newTask)).t :=
  C3_rerun_restores_and_replays ["A"] c3iev [] 0 false c3ps newTask "A" .sourcePlugin 1
    (runPlugin c3iev.run c3ps "A" .sourcePlugin 1 (taskStart newTask))
    (by decide) rfl rfl (Or.inl rfl) rfl (by decide) (by decide)

/-! ### C4: plugin-error handling (attach at 503, conditional dismiss) -/

/-- Counterexample inputs for C4: a scheduled `Stop` lands during a
non-source plugin's run (so neither `rerun` nor `preempted` is set, but
`stopped` becomes 1), and the plugin returns an error. -/
def c4ps : PipelineState := { initialPipelineState with stopCancel := some .stopClosure }

def c4ev : RunEvent := ⟨[.stopCall true], some 0, 0, 1⟩

/-- C4 as stated is false: with a plugin error and neither `rerun` nor
`preempted` set, the error is attached at 503, yet the instance is NOT
dismissed, because the pipeline has been stopped meanwhile
(`p.mod.dismissPluginInstance` is guarded by `stopped == 0`,
pipeline.go line 308). -/
theorem C4_unconditional_dismiss_counterexample :
    c4ev.retErr ≠ none ∧
    (runPlugin c4ev c4ps "p" .processPlugin 1 ⟨.running, none, 0⟩).rerun = false ∧
    (runPlugin c4ev c4ps "p" .processPlugin 1 ⟨.running, none, 0⟩).preempted = false ∧
    (runPlugin c4ev c4ps "p" .processPlugin 1 ⟨.running, none, 0⟩).t.err =
      some (.pluginFailure 0) ∧
    (runPlugin c4ev c4ps "p" .processPlugin 1 ⟨.running, none, 0⟩).t.resultCode = 503 ∧
    ¬ ExtCall.dismissCall "p" ∈
      (runPlugin c4ev c4ps "p" .processPlugin 1 ⟨.running, none, 0⟩).ps.trace := by
  decide

/-- C4 amended: when a plugin's `Run` returns a non-nil error and neither
`rerun` nor `preempted` is set, the plugin's error is attached to the task
at 503 exactly when the task does not already carry an error, and the
instance is dismissed exactly when additionally the pipeline has not been
stopped (`stopped == 0` at that point); a stopped pipeline skips the
dismissal. -/
theorem C4_error_attach_and_conditional_dismiss (ev : RunEvent) (ps : PipelineState)
    (nm : String) (ty : PluginType) (gen : Nat) (input : TaskState) (eid : Nat)
    (heid : ev.retErr = some eid)
    (hre : (runPlugin ev ps nm ty gen input).rerun = false)
    (hpre : (runPlugin ev ps nm ty gen input).preempted = false) :
    (runPlugin ev ps nm ty gen input).t =
      (if (runPluginCtx ev ps nm ty gen input).t.err = none
       then taskSetError (runPluginCtx ev ps nm ty gen input).t
         (.pluginFailure eid) httpStatusServiceUnavailable
       else (runPluginCtx ev ps nm ty gen input).t) ∧
    (runPlugin ev ps nm ty gen input).ps.trace =
      ps.trace ++ (if (runPluginCtx ev ps nm ty gen input).ps.stopped = 0
        then [ExtCall.dismissCall nm] else []) := by
  have hre' : (runPluginCtx ev ps nm ty gen input).rerun = false := hre
  have hpre' : (runPluginCtx ev ps nm ty gen input).preempted = false := hpre
  have hstopeq : (runPluginStats ev nm
      ⟨runPluginTeardown (runPluginCtx ev ps nm ty gen input).ps,
        (runPluginCtx ev ps nm ty gen input).t, false, false⟩).stopped =
      (runPluginCtx ev ps nm ty gen input).ps.stopped :=
    (runPluginStats_fields ev nm _).2.2.2.2.2.1
  have htr : (runPluginStats ev nm
      ⟨runPluginTeardown (runPluginCtx ev ps nm ty gen input).ps,
        (runPluginCtx ev ps nm ty gen input).t, false, false⟩).trace =
      ps.trace := by
    refine (runPluginStats_fields ev nm _).2.2.2.2.2.2.1.trans ?_
    show (runPluginCtx ev ps nm ty gen input).ps.trace = ps.trace
    exact (runPluginExec_fields ev _ input).2.2.2.2.2.2.2.1.trans
      (runPluginSetup_fields ps nm ty gen).2.2.1
  refine ⟨?_, ?_⟩
  · simp only [runPlugin]
    simp [runPluginErrHandling, heid, hre', hpre']
  · simp only [runPlugin]
    by_cases hq : (runPluginCtx ev ps nm ty gen input).ps.stopped = 0
    · simp [runPluginErrHandling, heid, hre', hpre', hq, hstopeq, htr]
    · simp [runPluginErrHandling, heid, hre', hpre', hq, hstopeq, htr]

theorem C4_error_attach_and_conditional_dismiss_witness :
    ((runPlugin c4ev c4ps "p" .processPlugin 1 ⟨.running, none, 0⟩).t =
      (if (runPluginCtx c4ev c4ps "p" .processPlugin 1 ⟨.running, none, 0⟩).t.err = none
       then taskSetError (runPluginCtx c4ev c4ps "p" .processPlugin 1 ⟨.running, none, 0⟩).t
         (.pluginFailure 0) httpStatusServiceUnavailable
       else (runPluginCtx c4ev c4ps "p" .processPlugin 1 ⟨.running, none, 0⟩).t)) ∧
    (runPlugin c4ev c4ps "p" .processPlugin 1 ⟨.running, none, 0⟩).ps.trace =
      c4ps.trace ++ (if (runPluginCtx c4ev c4ps "p" .processPlugin 1
          ⟨.running, none, 0⟩).ps.stopped = 0
        then [ExtCall.dismissCall "p"] else []) :=
  C4_error_attach_and_conditional_dismiss c4ev c4ps "p" .processPlugin 1
    ⟨.running, none, 0⟩ 0 rfl (by decide) (by decide)

/-! ### C5 and C10: statistics publication -/

theorem runPluginCtx_pluginStatChan (ev : RunEvent) (ps : PipelineState) (nm : String)
    (ty : PluginType) (gen : Nat) (input : TaskState) :
    (runPluginCtx ev ps nm ty gen input).ps.pluginStatChan = ps.pluginStatChan :=
  (runPluginExec_fields ev _ input).2.2.2.2.2.1.trans
    (runPluginSetup_fields ps nm ty gen).2.2.2.1

theorem runPlugin_pluginStatChan (ev : RunEvent) (ps : PipelineState) (nm : String)
    (ty : PluginType) (gen : Nat) (input : TaskState) :
    (runPlugin ev ps nm ty gen input).ps.pluginStatChan =
      (runPluginStats ev nm
        ⟨runPluginTeardown (runPluginCtx ev ps nm ty gen input).ps,
          (runPluginCtx ev ps nm ty gen input).t,
          (runPluginCtx ev ps nm ty gen input).preempted,
          (runPluginCtx ev ps nm ty gen input).rerun⟩).pluginStatChan :=
  (runPluginErrHandling_fields ev nm input.resultCode _).2.2.2.2.2.2.1

/-- C5: each `runPlugin` invocation offers exactly one per-plugin stat
record on `pluginStatChan` precisely when it finished with `rerun` false,
`preempted` false and `stopped == 0` (otherwise the channel is untouched);
the driver offers exactly one pipeline-level record after its loop
precisely when `preempted` is false and `stopped == 0`, with `successful`
defined as the task carrying no error; and an offer appends when the
buffer has room and silently drops otherwise. -/
theorem C5_stat_publication (ev : RunEvent) (ps : PipelineState) (nm : String)
    (ty : PluginType) (gen : Nat) (input : TaskState)
    (plugins : List String) (events : List IterEvent) (startAt finishAt : Nat)
    (ps0 ps1 : PipelineState) (t1 : TaskState) (pre : Bool)
    (res : PipelineState × Option String)
    (hstop : ps0.stopped ≠ 1) (hstart : ps0.started = 0)
    (hloop : driverLoop plugins events 0 false
      { ps0 with started := 1, stopCancel := some .stopClosure } newTask =
        some (ps1, t1, pre))
    (hrun : pipelineRun plugins events startAt finishAt ps0 = some res) :
    ((runPlugin ev ps nm ty gen input).ps.pluginStatChan =
      if (runPluginCtx ev ps nm ty gen input).rerun = false ∧
          (runPluginCtx ev ps nm ty gen input).preempted = false ∧
          (runPluginCtx ev ps nm ty gen input).ps.stopped = 0
      then offerPluginStat ps.pluginStatChan
        ⟨⟨ev.startAt, ev.finishAt,
            ev.retErr.isNone && (runPluginCtx ev ps nm ty gen input).t.err.isNone⟩, nm⟩
      else ps.pluginStatChan) ∧
    (res.1.pipelineAndTaskStatChan =
      if pre = false ∧ ps1.stopped = 0
      then offerStat ps1.pipelineAndTaskStatChan
        ⟨startAt, finishAt,
          (if t1.status ≠ .finished then taskFinish t1 else t1).err.isNone⟩
      else ps1.pipelineAndTaskStatChan) ∧
    (∀ (c : List pluginStatisticsData) (d : pluginStatisticsData),
      (c.length < statChanCap → offerPluginStat c d = c ++ [d]) ∧
      (¬ c.length < statChanCap → offerPluginStat c d = c)) ∧
    (∀ (c : List statisticsData) (d : statisticsData),
      (c.length < statChanCap → offerStat c d = c ++ [d]) ∧
      (¬ c.length < statChanCap → offerStat c d = c)) := by
  have hchan := runPluginCtx_pluginStatChan ev ps nm ty gen input
  refine ⟨?_, ?_, ?_, ?_⟩
  · rw [runPlugin_pluginStatChan]
    by_cases hc : (runPluginCtx ev ps nm ty gen input).rerun = false ∧
        (runPluginCtx ev ps nm ty gen input).preempted = false ∧
        (runPluginCtx ev ps nm ty gen input).ps.stopped = 0
    · simp only [runPluginStats, runPluginTeardown]
      simp [hc.1, hc.2.1, hc.2.2, hchan]
    · simp only [runPluginStats, runPluginTeardown]
      by_cases h1 : (runPluginCtx ev ps nm ty gen input).rerun = false
      · by_cases h2 : (runPluginCtx ev ps nm ty gen input).preempted = false
        · have h3 : ¬ (runPluginCtx ev ps nm ty gen input).ps.stopped = 0 :=
            fun hq => hc ⟨h1, h2, hq⟩
          simp [h1, h2, h3, hchan]
        · simp [h1, h2, hc, hchan]
      · simp [h1, hc, hchan]
  · unfold pipelineRun at hrun
    rw [if_neg hstop, if_neg (fun hcon => hcon hstart), hloop] at hrun
    have hres := Option.some.inj hrun
    rw [← hres]
    by_cases hc : pre = false ∧ ps1.stopped = 0
    · simp [hc.1, hc.2]
    · simp only []
      by_cases h1 : pre = false
      · have h2 : ¬ ps1.stopped = 0 := fun hq => hc ⟨h1, hq⟩
        simp [h1, h2, hc, apply_ite]
      · simp [h1, hc, apply_ite]
  · intro c d
    exact ⟨fun h => by simp [offerPluginStat, h], fun h => by simp [offerPluginStat, h]⟩
  · intro c d
    exact ⟨fun h => by simp [offerStat, h], fun h => by simp [offerStat, h]⟩

/-- Witness scenario for C5: one successful plugin. -/
def c5iev : IterEvent := ⟨.ok "A" .processPlugin 1, ⟨[], none, 0, 1⟩, false⟩

def c5trip : PipelineState × TaskState × Bool :=
  (driverLoop ["A"] [c5iev] 0 false
    { initialPipelineState with started := 1, stopCancel := some .stopClosure }
    newTask).getD (initialPipelineState, newTask, false)

def c5res : PipelineState × Option String :=
  (pipelineRun ["A"] [c5iev] 0 5 initialPipelineState).getD (initialPipelineState, none)

theorem C5_stat_publication_witness :
    c5res.1.pipelineAndTaskStatChan =
      if c5trip.2.2 = false ∧ c5trip.1.stopped = 0
      then offerStat c5trip.1.pipelineAndTaskStatChan
        ⟨0, 5, (if c5trip.2.1.status ≠ .finished then taskFinish c5trip.2.1
          else c5trip.2.1).err.isNone⟩
      else c5trip.1.pipelineAndTaskStatChan :=
  (C5_stat_publication ⟨[], none, 0, 1⟩ initialPipelineState "A" .processPlugin 1 newTask
    ["A"] [c5iev] 0 5 initialPipelineState c5trip.1 c5trip.2.1 c5trip.2.2
    (c5res.1, c5res.2) (by decide) rfl (by decide) (by decide)).2.1

/-- C10: the `successful` field of a published per-plugin stat record is
`err == nil && t.Error() == nil`, strictly stronger than the `success`
boolean `runPlugin` returns to the driver (`err == nil` alone): a run
whose record says `successful` always reports `success`, and a concrete
invocation is reported `success = true` while its published record is
marked unsuccessful. -/
theorem C10_plugin_stat_success_stronger (ev : RunEvent) (ps : PipelineState)
    (nm : String) (ty : PluginType) (gen : Nat) (input : TaskState)
    (hrec : (ev.retErr.isNone &&
      (runPluginCtx ev ps nm ty gen input).t.err.isNone) = true) :
    ((runPlugin ev ps nm ty gen input).success = ev.retErr.isNone) ∧
    ((runPlugin ev ps nm ty gen input).success = true) ∧
    ((runPlugin ⟨[.setTaskError 7 500], none, 0, 1⟩ initialPipelineState "p"
        .processPlugin 1 ⟨.running, none, 0⟩).success = true ∧
      (runPlugin ⟨[.setTaskError 7 500], none, 0, 1⟩ initialPipelineState "p"
        .processPlugin 1 ⟨.running, none, 0⟩).ps.pluginStatChan =
        [⟨⟨0, 1, false⟩, "p"⟩]) := by
  refine ⟨rfl, ?_, by decide⟩
  rw [runPlugin_success]
  exact (Bool.and_eq_true_iff.mp hrec).1

theorem C10_plugin_stat_success_stronger_witness :
    (runPlugin ⟨[], none, 0, 1⟩ initialPipelineState "A" .processPlugin 1
      newTask).success = true :=
  (C10_plugin_stat_success_stronger ⟨[], none, 0, 1⟩ initialPipelineState "A"
    .processPlugin 1 newTask (by decide)).2.1

/-! ### C8: cancel slots and running-plugin identity -/

/-- All three cancel slots hold a function value (Go: are non-nil). -/
def SlotsDefined (p : PipelineState) : Prop :=
  p.rerunCancel.isSome = true ∧ p.stopCancel.isSome = true ∧
  p.scheduleCancel.isSome = true

theorem dispatchAfter_slots (inst : Option (String × PluginType)) (ro : Bool)
    (ps : PipelineState) (t : TaskState) :
    (dispatchAfter inst ro ps t).1.rerunCancel = ps.rerunCancel ∧
    (dispatchAfter inst ro ps t).1.stopCancel = ps.stopCancel ∧
    (dispatchAfter inst ro ps t).1.scheduleCancel = ps.scheduleCancel := by
  unfold dispatchAfter
  cases hs : t.status
  case responseImmediately =>
    by_cases h1 : ps.stopped = 1
    · simp [h1]
    · simp only [if_neg h1]
      cases inst with
      | none => simp
      | some p =>
          obtain ⟨nm, ty⟩ := p
          by_cases h2 : ro <;> simp [h2]
  all_goals simp

theorem slotsDefined_dispatch {ps : PipelineState} (inst : Option (String × PluginType))
    (ro : Bool) (t : TaskState) (hsd : SlotsDefined ps) :
    SlotsDefined (dispatchAfter inst ro ps t).1 := by
  obtain ⟨hd1, hd2, hd3⟩ := dispatchAfter_slots inst ro ps t
  exact ⟨hd1 ▸ hsd.1, hd2 ▸ hsd.2.1, hd3 ▸ hsd.2.2⟩

theorem slotsDefined_runPlugin {ps : PipelineState} (ev : RunEvent) (nm : String)
    (ty : PluginType) (gen : Nat) (input : TaskState) (hsd : SlotsDefined ps) :
    SlotsDefined (runPlugin ev ps nm ty gen input).ps := by
  obtain ⟨hp1, hp2, hp3, _, _⟩ := runPlugin_post_slots ev ps nm ty gen input
  exact ⟨by rw [hp1]; rfl, by rw [hp3]; exact hsd.2.1, by rw [hp2]; rfl⟩

/-- The driver loop only ever stores function values into the cancel
slots: they remain non-nil on exit. -/
theorem driverLoop_slots (plugins : List String) (events : List IterEvent) :
    ∀ (i : Nat) (pre : Bool) (ps : PipelineState) (t : TaskState)
      (ps1 : PipelineState) (t1 : TaskState) (pre1 : Bool),
      SlotsDefined ps →
      driverLoop plugins events i pre ps t = some (ps1, t1, pre1) →
      SlotsDefined ps1 := by
  induction events with
  | nil =>
      intro i pre ps t ps1 t1 pre1 hsd h
      by_cases hc : i < plugins.length ∧ ps.stopped = 0
      · rw [driverLoop, if_pos hc] at h
        exact Option.noConfusion h
      · rw [driverLoop, if_neg hc] at h
        have hps : ps = ps1 := congrArg Prod.fst (Option.some.inj h)
        exact hps ▸ hsd
  | cons ev rest ih =>
      intro i pre ps t ps1 t1 pre1 hsd h
      by_cases hc : i < plugins.length ∧ ps.stopped = 0
      · rw [driverLoop, if_pos hc] at h
        cases hres : ev.resolve with
        | fail eid =>
            simp only [hres] at h
            by_cases hf : (dispatchAfter none ev.recoverOk ps
                (taskSetError t (.resolveFailure eid)
                  httpStatusServiceUnavailable)).2.status = .finished
            · rw [if_pos hf] at h
              have hps := congrArg (fun x => x.1) (Option.some.inj h)
              simp only at hps
              exact hps ▸ slotsDefined_dispatch none ev.recoverOk _ hsd
            · rw [if_neg hf] at h
              exact ih (i + 1) pre _ _ ps1 t1 pre1
                (slotsDefined_dispatch none ev.recoverOk _ hsd) h
        | ok nm ty gen =>
            simp only [hres] at h
            by_cases hst : t.status = .pending ∨ t.status = .running
            · rw [if_pos hst] at h
              have hsd2 : SlotsDefined
                  { (runPlugin ev.run ps nm ty gen
                      (if t.status = .pending then taskStart t else t)).ps with
                    trace := (runPlugin ev.run ps nm ty gen
                      (if t.status = .pending then taskStart t else t)).ps.trace ++
                        [.releaseCall nm] } := by
                have := slotsDefined_runPlugin ev.run nm ty gen
                  (if t.status = .pending then taskStart t else t) hsd
                exact ⟨this.1, this.2.1, this.2.2⟩
              by_cases hrr : (!(runPlugin ev.run ps nm ty gen
                  (if t.status = .pending then taskStart t else t)).success &&
                  (runPlugin ev.run ps nm ty gen
                    (if t.status = .pending then taskStart t else t)).rerun) = true
              · rw [if_pos hrr] at h
                exact ih i _ _ _ ps1 t1 pre1 hsd2 h
              · rw [if_neg hrr] at h
                by_cases hf : (dispatchAfter (some (nm, ty)) ev.recoverOk
                    { (runPlugin ev.run ps nm ty gen
                        (if t.status = .pending then taskStart t else t)).ps with
                      trace := (runPlugin ev.run ps nm ty gen
                        (if t.status = .pending then taskStart t else t)).ps.trace ++
                          [.releaseCall nm] }
                    (runPlugin ev.run ps nm ty gen
                      (if t.status = .pending then taskStart t else t)).t).2.status =
                    .finished
                · rw [if_pos hf] at h
                  have hps := congrArg (fun x => x.1) (Option.some.inj h)
                  simp only at hps
                  exact hps ▸ slotsDefined_dispatch (some (nm, ty)) ev.recoverOk _ hsd2
                · rw [if_neg hf] at h
                  exact ih (i + 1) _ _ _ ps1 t1 pre1
                    (slotsDefined_dispatch (some (nm, ty)) ev.recoverOk _ hsd2) h
            · rw [if_neg hst] at h
              by_cases hf : (dispatchAfter (some (nm, ty)) ev.recoverOk ps t).2.status =
                  .finished
              · rw [if_pos hf] at h
                have hps := congrArg (fun x => x.1) (Option.some.inj h)
                simp only at hps
                exact hps ▸ slotsDefined_dispatch (some (nm, ty)) ev.recoverOk _ hsd
              · rw [if_neg hf] at h
                exact ih (i + 1) pre _ _ ps1 t1 pre1
                  (slotsDefined_dispatch (some (nm, ty)) ev.recoverOk _ hsd) h
      · rw [driverLoop, if_neg hc] at h
        have hps : ps = ps1 := congrArg Prod.fst (Option.some.inj h)
        exact hps ▸ hsd

/-- Method `Run` preserves non-nil cancel slots end to end. -/
theorem pipelineRun_slots (plugins : List String) (events : List IterEvent)
    (startAt finishAt : Nat) (ps : PipelineState) (res : PipelineState × Option String)
    (hsd : SlotsDefined ps)
    (h : pipelineRun plugins events startAt finishAt ps = some res) :
    SlotsDefined res.1 := by
  unfold pipelineRun at h
  by_cases h1 : ps.stopped = 1
  · rw [if_pos h1] at h
    have hps : ps = res.1 := congrArg Prod.fst (Option.some.inj h)
    exact hps ▸ hsd
  · rw [if_neg h1] at h
    by_cases h2 : ps.started ≠ 0
    · rw [if_pos h2] at h
      have hps : ps = res.1 := congrArg Prod.fst (Option.some.inj h)
      exact hps ▸ hsd
    · rw [if_neg h2] at h
      rcases hd : driverLoop plugins events 0 false
          { ps with started := 1, stopCancel := some .stopClosure } newTask with _ | trip
      · rw [hd] at h
        exact Option.noConfusion h
      · obtain ⟨ps1, t1, pre⟩ := trip
        rw [hd] at h
        have hsd1 : SlotsDefined ps1 :=
          driverLoop_slots plugins events 0 false
            { ps with started := 1, stopCancel := some .stopClosure } newTask ps1 t1 pre
            ⟨hsd.1, rfl, hsd.2.2⟩ hd
        have hres := Option.some.inj h
        rw [← hres]
        refine ⟨?_, ?_, ?_⟩ <;>
          simp [apply_ite, hsd1.1, hsd1.2.1, hsd1.2.2]

/-- Inputs for C8: one successful non-source plugin run driven by `Run`. -/
def c8ps : PipelineState := { initialPipelineState with stopCancel := some .stopClosure }

def c8iev : IterEvent := ⟨.ok "A" .processPlugin 1, ⟨[], none, 0, 1⟩, false⟩

def c8res : PipelineState × Option String :=
  (pipelineRun ["A"] [c8iev] 0 5 initialPipelineState).getD (initialPipelineState, none)

/-- C8 as stated is false: after a plugin run, `stopCancel` still holds the
stop closure installed at `Run` entry (pipeline.go line 119) — only
`rerunCancel` and `scheduleCancel` are reset to no-op (lines 275-276).
Concretely, a one-plugin `Run` exits with `stopCancel = stopClosure ≠ NoOp`. -/
theorem C8_all_slots_reset_counterexample :
    ((pipelineRun ["A"] [c8iev] 0 5 initialPipelineState).map
      (fun r => r.1.stopCancel)) = some (some .stopClosure) ∧
    (some CancelSlot.stopClosure ≠ some CancelSlot.noOp) := by
  decide

/-- C8 amended: the three cancel slots are non-nil at every point of
execution — initialized to the no-op function, with `rerunCancel` and
`scheduleCancel` reset to no-op after each plugin run while `stopCancel`
keeps the stop closure installed at `Run` entry — and
`runningPluginName` / `runningPluginGeneration` are set immediately
before `instance.Run` is entered (and keep those values throughout the
run) and are cleared to `""` and `0` immediately after it returns. -/
theorem C8_slots_nonnil_and_identity (ev : RunEvent) (ps : PipelineState)
    (nm : String) (ty : PluginType) (gen : Nat) (input : TaskState)
    (plugins : List String) (events : List IterEvent) (startAt finishAt : Nat)
    (ps0 : PipelineState) (res : PipelineState × Option String)
    (hsd : SlotsDefined ps) (hsd0 : SlotsDefined ps0)
    (hrun : pipelineRun plugins events startAt finishAt ps0 = some res) :
    (initialPipelineState.rerunCancel = some .noOp ∧
      initialPipelineState.stopCancel = some .noOp ∧
      initialPipelineState.scheduleCancel = some .noOp ∧
      initialPipelineState.runningPluginName = "" ∧
      initialPipelineState.runningPluginGeneration = 0) ∧
    ((runPluginSetup ps nm ty gen).runningPluginName = nm ∧
      (runPluginSetup ps nm ty gen).runningPluginGeneration = gen ∧
      (runPluginCtx ev ps nm ty gen input).ps.runningPluginName = nm ∧
      (runPluginCtx ev ps nm ty gen input).ps.runningPluginGeneration = gen) ∧
    ((runPlugin ev ps nm ty gen input).ps.runningPluginName = "" ∧
      (runPlugin ev ps nm ty gen input).ps.runningPluginGeneration = 0 ∧
      (runPlugin ev ps nm ty gen input).ps.rerunCancel = some .noOp ∧
      (runPlugin ev ps nm ty gen input).ps.scheduleCancel = some .noOp ∧
      (runPlugin ev ps nm ty gen input).ps.stopCancel = ps.stopCancel) ∧
    (SlotsDefined (runPluginSetup ps nm ty gen) ∧
      SlotsDefined (runPluginCtx ev ps nm ty gen input).ps ∧
      SlotsDefined (runPlugin ev ps nm ty gen input).ps) ∧
    SlotsDefined res.1 := by
  have hsf := runPluginSetup_fields ps nm ty gen
  have hef := runPluginExec_fields ev (runPluginSetup ps nm ty gen) input
  have hss : (runPluginSetup ps nm ty gen).scheduleCancel.isSome = true := by
    unfold runPluginSetup
    split
    · simp
    · exact hsd.2.2
  have hsetup : SlotsDefined (runPluginSetup ps nm ty gen) := by
    refine ⟨?_, ?_, hss⟩
    · rw [hsf.2.2.2.2.2.1]
      rfl
    · rw [hsf.1]
      exact hsd.2.1
  refine ⟨⟨rfl, rfl, rfl, rfl, rfl⟩, ?_, ?_, ?_, ?_⟩
  · exact ⟨hsf.2.2.2.2.2.2.1, hsf.2.2.2.2.2.2.2,
      hef.2.2.2.1.trans hsf.2.2.2.2.2.2.1,
      hef.2.2.2.2.1.trans hsf.2.2.2.2.2.2.2⟩
  · obtain ⟨hp1, hp2, hp3, hp4, hp5⟩ := runPlugin_post_slots ev ps nm ty gen input
    exact ⟨hp4, hp5, hp1, hp2, hp3⟩
  · refine ⟨hsetup, ⟨?_, ?_, ?_⟩, slotsDefined_runPlugin ev nm ty gen input hsd⟩
    · have h1 : (runPluginCtx ev ps nm ty gen input).ps.rerunCancel =
          (runPluginSetup ps nm ty gen).rerunCancel := hef.1
      rw [h1]
      exact hsetup.1
    · have h1 : (runPluginCtx ev ps nm ty gen input).ps.stopCancel =
          (runPluginSetup ps nm ty gen).stopCancel := hef.2.2.1
      rw [h1]
      exact hsetup.2.1
    · have h1 : (runPluginCtx ev ps nm ty gen input).ps.scheduleCancel =
          (runPluginSetup ps nm ty gen).scheduleCancel := hef.2.1
      rw [h1]
      exact hss
  · exact pipelineRun_slots plugins events startAt finishAt ps0 res hsd0 hrun

theorem C8_slots_nonnil_and_identity_witness :
    ((runPlugin ⟨[], none, 0, 1⟩ c8ps "A" .processPlugin 1 newTask).ps.runningPluginName
        = "" ∧
      (runPluginCtx ⟨[], none, 0, 1⟩ c8ps "A" .processPlugin 1
        newTask).ps.runningPluginName = "A") ∧
    SlotsDefined c8res.1 := by
  have h := C8_slots_nonnil_and_identity ⟨[], none, 0, 1⟩ c8ps "A" .processPlugin 1
    newTask ["A"] [c8iev] 0 5 initialPipelineState (c8res.1, c8res.2)
    ⟨rfl, rfl, rfl⟩ ⟨rfl, rfl, rfl⟩ (by decide)
  exact ⟨⟨h.2.2.1.1, h.2.1.2.2.1⟩, h.2.2.2.2⟩

/-! ### C9: the stop protocol (`Stop`, the two stat updaters, the driver
tail).  `Stop` (pipeline.go lines 208-237) runs concurrently with the end
of `Run` (lines 177-196) and the two stat updaters (lines 370-381 and
408-418).  The protocol is modelled as a small-step interleaving system;
a blocked operation (receiving on `done` or `statUpdaterDone`) is a step
that leaves the state unchanged until its guard holds.  Stat payloads are
abstracted to `Nat`. -/

inductive UpdPhase
  | updRunning
  | updDraining
  | updReadyToAck
  | updExited
deriving DecidableEq, Repr

inductive DrvPhase
  | drvOffering
  | drvExiting
  | drvExited
deriving DecidableEq, Repr

inductive StopPC
  | stEntry
  | stCasLost
  | stCheckStarted
  | stBlockedDone
  | stCloseSignal
  | stWaitAck1
  | stWaitAck2
  | stReturned
deriving DecidableEq, Repr

/-- Joint state of `Stop(scheduled)`, the driver tail, the two stat
updaters and the shared channels.  `cancelChoice` is ghost state recording
which cancel slot `Stop` invoked (`true` = `scheduleCancel`);
`accepted1`/`accepted2` are ghost lists of the offers that entered each
stat channel (were not dropped). -/
structure ShutdownState where
  scheduled : Bool
  stopped : Nat
  started : Nat
  doneClosed : Bool
  stopClosed : Bool
  cancelChoice : Option Bool
  pendingOffers : List (Bool × Nat)
  drv : DrvPhase
  pc : StopPC
  upd1 : UpdPhase
  upd2 : UpdPhase
  chan1 : List Nat
  chan2 : List Nat
  sink1 : List Nat
  sink2 : List Nat
  accepted1 : List Nat
  accepted2 : List Nat
deriving DecidableEq, Repr

/-- The driver tail (pipeline.go lines 177-196): while in flight it makes
its remaining drop-on-full stat offers (`true` = `pluginStatChan`), then
stores `started := 0` (line 190), then — when `stopped == 1` — closes
`done` (lines 192-194) and exits. -/
def driverStep (s : ShutdownState) : ShutdownState :=
  match s.drv with
  | .drvOffering =>
      match s.pendingOffers with
      | (toPlugin, v) :: rest =>
          if toPlugin then
            if s.chan2.length < statChanCap then
              { s with pendingOffers := rest, chan2 := s.chan2 ++ [v],
                       accepted2 := s.accepted2 ++ [v] }
            else { s with pendingOffers := rest }
          else
            if s.chan1.length < statChanCap then
              { s with pendingOffers := rest, chan1 := s.chan1 ++ [v],
                       accepted1 := s.accepted1 ++ [v] }
            else { s with pendingOffers := rest }
      | [] => { s with drv := .drvExiting, started := 0 }
  | .drvExiting =>
      if s.stopped = 1 then { s with drv := .drvExited, doneClosed := true }
      else { s with drv := .drvExited }
  | .drvExited => s

/-- One step of `Stop(scheduled)` (pipeline.go lines 208-237): CAS
`stopped` 0→1 (return at once when lost); invoke `scheduleCancel` or
`stopCancel` under the panic-swallowing scope (recorded in
`cancelChoice`); wait on `done` when a driver is in flight
(`started == 1`); close `statUpdaterStop`; then receive the two
acknowledgements (the rendezvous itself is `ackStep`). -/
def stopperStep (s : ShutdownState) : ShutdownState :=
  match s.pc with
  | .stEntry =>
      if s.stopped = 1 then { s with pc := .stCasLost }
      else { s with stopped := 1, cancelChoice := some s.scheduled,
                    pc := .stCheckStarted }
  | .stCheckStarted =>
      if s.started = 1 then { s with pc := .stBlockedDone }
      else { s with pc := .stCloseSignal }
  | .stBlockedDone =>
      if s.doneClosed then { s with pc := .stCloseSignal } else s
  | .stCloseSignal => { s with stopClosed := true, pc := .stWaitAck1 }
  | _ => s

/-- An updater's normal select branch: consume one buffered record and
forward it to the statistics sink (pipeline.go lines 373-374, 411-412). -/
def updRecvStep (second : Bool) (s : ShutdownState) : ShutdownState :=
  if second then
    match s.upd2, s.chan2 with
    | .updRunning, d :: rest => { s with chan2 := rest, sink2 := s.sink2 ++ [d] }
    | _, _ => s
  else
    match s.upd1, s.chan1 with
    | .updRunning, d :: rest => { s with chan1 := rest, sink1 := s.sink1 ++ [d] }
    | _, _ => s

/-- An updater's stop branch: observe `statUpdaterStop` closed and move to
draining (pipeline.go lines 375-376, 413-414). -/
def updSeeStopStep (second : Bool) (s : ShutdownState) : ShutdownState :=
  if second then
    match s.upd2 with
    | .updRunning => if s.stopClosed then { s with upd2 := .updDraining } else s
    | _ => s
  else
    match s.upd1 with
    | .updRunning => if s.stopClosed then { s with upd1 := .updDraining } else s
    | _ => s

/-- One iteration of the non-blocking drain loop
(`drainPipelineAndTaskStatData` / `drainPluginStatData`,
pipeline.go lines 359-368 and 397-406): pop one record, or — when the
buffer is empty — become ready to acknowledge. -/
def updDrainStep (second : Bool) (s : ShutdownState) : ShutdownState :=
  if second then
    match s.upd2 with
    | .updDraining =>
        match s.chan2 with
        | d :: rest => { s with chan2 := rest, sink2 := s.sink2 ++ [d] }
        | [] => { s with upd2 := .updReadyToAck }
    | _ => s
  else
    match s.upd1 with
    | .updDraining =>
        match s.chan1 with
        | d :: rest => { s with chan1 := rest, sink1 := s.sink1 ++ [d] }
        | [] => { s with upd1 := .updReadyToAck }
    | _ => s

/-- The rendezvous on the unbuffered `statUpdaterDone`: an updater that
finished draining sends `nil` (pipeline.go lines 377, 415) and `Stop`
receives it (lines 235-236); both sides advance together. -/
def ackStep (second : Bool) (s : ShutdownState) : ShutdownState :=
  if second then
    match s.upd2, s.pc with
    | .updReadyToAck, .stWaitAck1 => { s with upd2 := .updExited, pc := .stWaitAck2 }
    | .updReadyToAck, .stWaitAck2 => { s with upd2 := .updExited, pc := .stReturned }
    | _, _ => s
  else
    match s.upd1, s.pc with
    | .updReadyToAck, .stWaitAck1 => { s with upd1 := .updExited, pc := .stWaitAck2 }
    | .updReadyToAck, .stWaitAck2 => { s with upd1 := .updExited, pc := .stReturned }
    | _, _ => s

inductive ShutdownAction
  | driver
  | stopper
  | updRecv (second : Bool)
  | updSeeStop (second : Bool)
  | updDrain (second : Bool)
  | ack (second : Bool)
deriving DecidableEq, Repr

def shutdownStep : ShutdownAction → ShutdownState → ShutdownState
  | .driver, s => driverStep s
  | .stopper, s => stopperStep s
  | .updRecv b, s => updRecvStep b s
  | .updSeeStop b, s => updSeeStopStep b s
  | .updDrain b, s => updDrainStep b s
  | .ack b, s => ackStep b s

/-- An interleaved execution: the scheduler picks any sequence of steps. -/
def shutdownRun (acts : List ShutdownAction) (s : ShutdownState) : ShutdownState :=
  acts.foldl (fun s a => shutdownStep a s) s

/-- States from which a `Stop` call begins: the stopper at its entry,
nothing closed yet, both updaters in their normal select loop, no records
sinked yet, and the driver either in flight (`started == 1`, still to make
its offers) or already gone (`started == 0`, nothing pending). -/
def ShutdownInit (s : ShutdownState) : Prop :=
  s.pc = .stEntry ∧ s.doneClosed = false ∧ s.stopClosed = false ∧
  s.cancelChoice = none ∧ s.upd1 = .updRunning ∧ s.upd2 = .updRunning ∧
  s.sink1 = [] ∧ s.sink2 = [] ∧ s.accepted1 = [] ∧ s.accepted2 = [] ∧
  ((s.started = 1 ∧ s.drv = .drvOffering) ∨
    (s.started = 0 ∧ s.drv = .drvExited ∧ s.pendingOffers = []))

/-- Inductive invariant of the shutdown protocol.  `b1`/`b2` are the
initial contents of the two stat channels; conservation says every record
is either still buffered or already in the sink. -/
structure ShutdownInv (b1 b2 : List Nat) (s : ShutdownState) : Prop where
  cons1 : s.upd1 = .updRunning ∨ s.upd1 = .updDraining →
    s.sink1 ++ s.chan1 = b1 ++ s.accepted1
  done1 : s.upd1 = .updReadyToAck ∨ s.upd1 = .updExited →
    s.chan1 = [] ∧ s.sink1 = b1 ++ s.accepted1
  cons2 : s.upd2 = .updRunning ∨ s.upd2 = .updDraining →
    s.sink2 ++ s.chan2 = b2 ++ s.accepted2
  done2 : s.upd2 = .updReadyToAck ∨ s.upd2 = .updExited →
    s.chan2 = [] ∧ s.sink2 = b2 ++ s.accepted2
  startedPending : ¬ s.started = 1 → s.pendingOffers = []
  drvPending : ¬ s.drv = .drvOffering → s.pendingOffers = [] ∧ ¬ s.started = 1
  donePending : s.doneClosed = true → s.pendingOffers = []
  pcPending : s.pc = .stCloseSignal ∨ s.pc = .stWaitAck1 ∨ s.pc = .stWaitAck2 ∨
      s.pc = .stReturned → s.pendingOffers = []
  closedPC : s.stopClosed = true →
    s.pc = .stWaitAck1 ∨ s.pc = .stWaitAck2 ∨ s.pc = .stReturned
  pcClosed : s.pc = .stWaitAck1 ∨ s.pc = .stWaitAck2 ∨ s.pc = .stReturned →
    s.stopClosed = true
  stoppedSet : ¬ s.pc = .stEntry ∧ ¬ s.pc = .stCasLost →
    s.stopped = 1 ∧ s.cancelChoice = some s.scheduled
  entryClean : s.pc = .stEntry → s.cancelChoice = none ∧ s.stopClosed = false
  casLostClean : s.pc = .stCasLost → s.cancelChoice = none ∧ s.stopClosed = false
  updStop1 : s.upd1 = .updDraining ∨ s.upd1 = .updReadyToAck ∨ s.upd1 = .updExited →
    s.stopClosed = true
  updStop2 : s.upd2 = .updDraining ∨ s.upd2 = .updReadyToAck ∨ s.upd2 = .updExited →
    s.stopClosed = true
  ackOne : s.pc = .stWaitAck2 → s.upd1 = .updExited ∨ s.upd2 = .updExited
  ackBoth : s.pc = .stReturned → s.upd1 = .updExited ∧ s.upd2 = .updExited

theorem driverStep_inv (b1 b2 : List Nat) (s : ShutdownState)
    (h : ShutdownInv b1 b2 s) : ShutdownInv b1 b2 (driverStep s) := by
  rcases hdrv : s.drv with _ | _ | _
  · rcases hpo : s.pendingOffers with _ | ⟨⟨tp, v⟩, rest⟩
    · have hstep : driverStep s = { s with drv := .drvExiting, started := 0 } := by
        simp [driverStep, hdrv, hpo]
      rw [hstep]
      exact { h with
        startedPending := fun _ => hpo
        drvPending := fun _ => ⟨hpo, by intro hx; simp at hx⟩ }
    · have hpne : ¬ s.pendingOffers = [] := by rw [hpo]; simp
      have hnr1 : ¬ (s.upd1 = .updReadyToAck ∨ s.upd1 = .updExited) := fun hq =>
        hpne (h.pcPending (Or.inr (h.closedPC (h.updStop1
          (Or.elim hq (fun hx => Or.inr (Or.inl hx)) (fun hx => Or.inr (Or.inr hx)))))))
      have hnr2 : ¬ (s.upd2 = .updReadyToAck ∨ s.upd2 = .updExited) := fun hq =>
        hpne (h.pcPending (Or.inr (h.closedPC (h.updStop2
          (Or.elim hq (fun hx => Or.inr (Or.inl hx)) (fun hx => Or.inr (Or.inr hx)))))))
      cases tp
      · by_cases hlen : s.chan1.length < statChanCap
        · have hstep : driverStep s = { s with pendingOffers := rest, chan1 := s.chan1 ++ [v], accepted1 := s.accepted1 ++ [v] } := by
            simp [driverStep, hdrv, hpo, hlen]
          rw [hstep]
          exact { h with
            cons1 := fun hq => by
              rw [← List.append_assoc, h.cons1 hq, List.append_assoc]
            done1 := fun hq => absurd hq hnr1
            startedPending := fun hq => absurd (h.startedPending hq) hpne
            drvPending := fun hq => absurd hdrv hq
            donePending := fun hq => absurd (h.donePending hq) hpne
            pcPending := fun hq => absurd (h.pcPending hq) hpne }
        · have hstep : driverStep s = { s with pendingOffers := rest } := by
            simp [driverStep, hdrv, hpo, hlen]
          rw [hstep]
          exact { h with
            startedPending := fun hq => absurd (h.startedPending hq) hpne
            drvPending := fun hq => absurd hdrv hq
            donePending := fun hq => absurd (h.donePending hq) hpne
            pcPending := fun hq => absurd (h.pcPending hq) hpne }
      · by_cases hlen : s.chan2.length < statChanCap
        · have hstep : driverStep s = { s with pendingOffers := rest, chan2 := s.chan2 ++ [v], accepted2 := s.accepted2 ++ [v] } := by
            simp [driverStep, hdrv, hpo, hlen]
          rw [hstep]
          exact { h with
            cons2 := fun hq => by
              rw [← List.append_assoc, h.cons2 hq, List.append_assoc]
            done2 := fun hq => absurd hq hnr2
            startedPending := fun hq => absurd (h.startedPending hq) hpne
            drvPending := fun hq => absurd hdrv hq
            donePending := fun hq => absurd (h.donePending hq) hpne
            pcPending := fun hq => absurd (h.pcPending hq) hpne }
        · have hstep : driverStep s = { s with pendingOffers := rest } := by
            simp [driverStep, hdrv, hpo, hlen]
          rw [hstep]
          exact { h with
            startedPending := fun hq => absurd (h.startedPending hq) hpne
            drvPending := fun hq => absurd hdrv hq
            donePending := fun hq => absurd (h.donePending hq) hpne
            pcPending := fun hq => absurd (h.pcPending hq) hpne }
  · have hdp := h.drvPending (by rw [hdrv]; simp)
    by_cases hstp : s.stopped = 1
    · have hstep : driverStep s = { s with drv := .drvExited, doneClosed := true } := by
        simp [driverStep, hdrv, hstp]
      rw [hstep]
      exact { h with
        startedPending := fun _ => hdp.1
        drvPending := fun _ => hdp
        donePending := fun _ => hdp.1 }
    · have hstep : driverStep s = { s with drv := .drvExited } := by
        simp [driverStep, hdrv, hstp]
      rw [hstep]
      exact { h with
        startedPending := fun _ => hdp.1
        drvPending := fun _ => hdp }
  · have hstep : driverStep s = s := by simp [driverStep, hdrv]
    rw [hstep]
    exact h

theorem stopperStep_inv (b1 b2 : List Nat) (s : ShutdownState)
    (h : ShutdownInv b1 b2 s) : ShutdownInv b1 b2 (stopperStep s) := by
  rcases hpc : s.pc with _ | _ | _ | _ | _ | _ | _ | _
  · have hec := h.entryClean hpc
    by_cases hstp : s.stopped = 1
    · have hstep : stopperStep s = { s with pc := .stCasLost } := by
        simp [stopperStep, hpc, hstp]
      rw [hstep]
      exact { h with
        pcPending := by rintro (hx | hx | hx | hx) <;> simp at hx
        closedPC := fun hq => absurd (hec.2.symm.trans hq) (by simp)
        pcClosed := by rintro (hx | hx | hx) <;> simp at hx
        stoppedSet := fun hq => absurd rfl hq.2
        entryClean := by intro hx; simp at hx
        casLostClean := fun _ => hec
        ackOne := by intro hx; simp at hx
        ackBoth := by intro hx; simp at hx }
    · have hstep : stopperStep s = { s with stopped := 1, cancelChoice := some s.scheduled, pc := .stCheckStarted } := by
        simp [stopperStep, hpc, hstp]
      rw [hstep]
      exact { h with
        pcPending := by rintro (hx | hx | hx | hx) <;> simp at hx
        closedPC := fun hq => absurd (hec.2.symm.trans hq) (by simp)
        pcClosed := by rintro (hx | hx | hx) <;> simp at hx
        stoppedSet := fun _ => ⟨rfl, rfl⟩
        entryClean := by intro hx; simp at hx
        casLostClean := by intro hx; simp at hx
        ackOne := by intro hx; simp at hx
        ackBoth := by intro hx; simp at hx }
  · have hstep : stopperStep s = s := by simp [stopperStep, hpc]
    rw [hstep]
    exact h
  · have hss := h.stoppedSet (by rw [hpc]; exact ⟨by simp, by simp⟩)
    have hclosed : s.stopClosed = false := by
      cases hb : s.stopClosed
      · rfl
      · exfalso
        rcases h.closedPC hb with hx | hx | hx <;> rw [hpc] at hx <;> simp at hx
    by_cases hst : s.started = 1
    · have hstep : stopperStep s = { s with pc := .stBlockedDone } := by
        simp [stopperStep, hpc, hst]
      rw [hstep]
      exact { h with
        pcPending := by rintro (hx | hx | hx | hx) <;> simp at hx
        closedPC := fun hq => absurd (hclosed.symm.trans hq) (by simp)
        pcClosed := by rintro (hx | hx | hx) <;> simp at hx
        stoppedSet := fun _ => hss
        entryClean := by intro hx; simp at hx
        casLostClean := by intro hx; simp at hx
        ackOne := by intro hx; simp at hx
        ackBoth := by intro hx; simp at hx }
    · have hstep : stopperStep s = { s with pc := .stCloseSignal } := by
        simp [stopperStep, hpc, hst]
      rw [hstep]
      exact { h with
        pcPending := fun _ => h.startedPending hst
        closedPC := fun hq => absurd (hclosed.symm.trans hq) (by simp)
        pcClosed := by rintro (hx | hx | hx) <;> simp at hx
        stoppedSet := fun _ => hss
        entryClean := by intro hx; simp at hx
        casLostClean := by intro hx; simp at hx
        ackOne := by intro hx; simp at hx
        ackBoth := by intro hx; simp at hx }
  · have hss := h.stoppedSet (by rw [hpc]; exact ⟨by simp, by simp⟩)
    have hclosed : s.stopClosed = false := by
      cases hb : s.stopClosed
      · rfl
      · exfalso
        rcases h.closedPC hb with hx | hx | hx <;> rw [hpc] at hx <;> simp at hx
    by_cases hdc : s.doneClosed = true
    · have hstep : stopperStep s = { s with pc := .stCloseSignal } := by
        simp [stopperStep, hpc, hdc]
      rw [hstep]
      exact { h with
        pcPending := fun _ => h.donePending hdc
        closedPC := fun hq => absurd (hclosed.symm.trans hq) (by simp)
        pcClosed := by rintro (hx | hx | hx) <;> simp at hx
        stoppedSet := fun _ => hss
        entryClean := by intro hx; simp at hx
        casLostClean := by intro hx; simp at hx
        ackOne := by intro hx; simp at hx
        ackBoth := by intro hx; simp at hx }
    · have hstep : stopperStep s = s := by simp [stopperStep, hpc, hdc]
      rw [hstep]
      exact h
  · have hss := h.stoppedSet (by rw [hpc]; exact ⟨by simp, by simp⟩)
    have hpp := h.pcPending (Or.inl hpc)
    have hstep : stopperStep s = { s with stopClosed := true, pc := .stWaitAck1 } := by
      simp [stopperStep, hpc]
    rw [hstep]
    exact { h with
      pcPending := fun _ => hpp
      closedPC := fun _ => Or.inl rfl
      pcClosed := fun _ => rfl
      stoppedSet := fun _ => hss
      entryClean := by intro hx; simp at hx
      casLostClean := by intro hx; simp at hx
      updStop1 := fun _ => rfl
      updStop2 := fun _ => rfl
      ackOne := by intro hx; simp at hx
      ackBoth := by intro hx; simp at hx }
  · have hstep : stopperStep s = s := by simp [stopperStep, hpc]
    rw [hstep]
    exact h
  · have hstep : stopperStep s = s := by simp [stopperStep, hpc]
    rw [hstep]
    exact h
  · have hstep : stopperStep s = s := by simp [stopperStep, hpc]
    rw [hstep]
    exact h

theorem updRecvStep_inv (b1 b2 : List Nat) (second : Bool) (s : ShutdownState)
    (h : ShutdownInv b1 b2 s) : ShutdownInv b1 b2 (updRecvStep second s) := by
  cases second
  · rcases hupd : s.upd1 with _ | _ | _ | _
    · rcases hch : s.chan1 with _ | ⟨d, rest⟩
      · have hstep : updRecvStep false s = s := by simp [updRecvStep, hupd, hch]
        rw [hstep]
        exact h
      · have hstep : updRecvStep false s = { s with chan1 := rest, sink1 := s.sink1 ++ [d] } := by
          simp [updRecvStep, hupd, hch]
        rw [hstep]
        exact { h with
          cons1 := fun _ => by
            have hx := h.cons1 (Or.inl hupd)
            rw [hch] at hx
            simpa [List.append_assoc] using hx
          done1 := by rintro (hx | hx) <;> rw [hupd] at hx <;> simp at hx }
    · have hstep : updRecvStep false s = s := by simp [updRecvStep, hupd]
      rw [hstep]
      exact h
    · have hstep : updRecvStep false s = s := by simp [updRecvStep, hupd]
      rw [hstep]
      exact h
    · have hstep : updRecvStep false s = s := by simp [updRecvStep, hupd]
      rw [hstep]
      exact h
  · rcases hupd : s.upd2 with _ | _ | _ | _
    · rcases hch : s.chan2 with _ | ⟨d, rest⟩
      · have hstep : updRecvStep true s = s := by simp [updRecvStep, hupd, hch]
        rw [hstep]
        exact h
      · have hstep : updRecvStep true s = { s with chan2 := rest, sink2 := s.sink2 ++ [d] } := by
          simp [updRecvStep, hupd, hch]
        rw [hstep]
        exact { h with
          cons2 := fun _ => by
            have hx := h.cons2 (Or.inl hupd)
            rw [hch] at hx
            simpa [List.append_assoc] using hx
          done2 := by rintro (hx | hx) <;> rw [hupd] at hx <;> simp at hx }
    · have hstep : updRecvStep true s = s := by simp [updRecvStep, hupd]
      rw [hstep]
      exact h
    · have hstep : updRecvStep true s = s := by simp [updRecvStep, hupd]
      rw [hstep]
      exact h
    · have hstep : updRecvStep true s = s := by simp [updRecvStep, hupd]
      rw [hstep]
      exact h

theorem updSeeStopStep_inv (b1 b2 : List Nat) (second : Bool) (s : ShutdownState)
    (h : ShutdownInv b1 b2 s) : ShutdownInv b1 b2 (updSeeStopStep second s) := by
  cases second
  · rcases hupd : s.upd1 with _ | _ | _ | _
    · by_cases hcl : s.stopClosed = true
      · have hstep : updSeeStopStep false s = { s with upd1 := .updDraining } := by
          simp [updSeeStopStep, hupd, hcl]
        rw [hstep]
        exact { h with
          cons1 := fun _ => h.cons1 (Or.inl hupd)
          done1 := by rintro (hx | hx) <;> simp at hx
          updStop1 := fun _ => hcl
          ackOne := fun hq => Or.inr ((h.ackOne hq).resolve_left (by rw [hupd]; simp))
          ackBoth := fun hq => absurd (h.ackBoth hq).1 (by rw [hupd]; simp) }
      · have hstep : updSeeStopStep false s = s := by simp [updSeeStopStep, hupd, hcl]
        rw [hstep]
        exact h
    · have hstep : updSeeStopStep false s = s := by simp [updSeeStopStep, hupd]
      rw [hstep]
      exact h
    · have hstep : updSeeStopStep false s = s := by simp [updSeeStopStep, hupd]
      rw [hstep]
      exact h
    · have hstep : updSeeStopStep false s = s := by simp [updSeeStopStep, hupd]
      rw [hstep]
      exact h
  · rcases hupd : s.upd2 with _ | _ | _ | _
    · by_cases hcl : s.stopClosed = true
      · have hstep : updSeeStopStep true s = { s with upd2 := .updDraining } := by
          simp [updSeeStopStep, hupd, hcl]
        rw [hstep]
        exact { h with
          cons2 := fun _ => h.cons2 (Or.inl hupd)
          done2 := by rintro (hx | hx) <;> simp at hx
          updStop2 := fun _ => hcl
          ackOne := fun hq => Or.inl ((h.ackOne hq).resolve_right (by rw [hupd]; simp))
          ackBoth := fun hq => absurd (h.ackBoth hq).2 (by rw [hupd]; simp) }
      · have hstep : updSeeStopStep true s = s := by simp [updSeeStopStep, hupd, hcl]
        rw [hstep]
        exact h
    · have hstep : updSeeStopStep true s = s := by simp [updSeeStopStep, hupd]
      rw [hstep]
      exact h
    · have hstep : updSeeStopStep true s = s := by simp [updSeeStopStep, hupd]
      rw [hstep]
      exact h
    · have hstep : updSeeStopStep true s = s := by simp [updSeeStopStep, hupd]
      rw [hstep]
      exact h

theorem updDrainStep_inv (b1 b2 : List Nat) (second : Bool) (s : ShutdownState)
    (h : ShutdownInv b1 b2 s) : ShutdownInv b1 b2 (updDrainStep second s) := by
  cases second
  · rcases hupd : s.upd1 with _ | _ | _ | _
    · have hstep : updDrainStep false s = s := by simp [updDrainStep, hupd]
      rw [hstep]
      exact h
    · rcases hch : s.chan1 with _ | ⟨d, rest⟩
      · have hstep : updDrainStep false s = { s with upd1 := .updReadyToAck } := by
          simp [updDrainStep, hupd, hch]
        rw [hstep]
        exact { h with
          cons1 := by rintro (hx | hx) <;> simp at hx
          done1 := fun _ => ⟨hch, by
            have hx := h.cons1 (Or.inr hupd)
            rw [hch, List.append_nil] at hx
            exact hx⟩
          updStop1 := fun _ => h.updStop1 (Or.inl hupd)
          ackOne := fun hq => Or.inr ((h.ackOne hq).resolve_left (by rw [hupd]; simp))
          ackBoth := fun hq => absurd (h.ackBoth hq).1 (by rw [hupd]; simp) }
      · have hstep : updDrainStep false s = { s with chan1 := rest, sink1 := s.sink1 ++ [d] } := by
          simp [updDrainStep, hupd, hch]
        rw [hstep]
        exact { h with
          cons1 := fun _ => by
            have hx := h.cons1 (Or.inr hupd)
            rw [hch] at hx
            simpa [List.append_assoc] using hx
          done1 := by rintro (hx | hx) <;> rw [hupd] at hx <;> simp at hx }
    · have hstep : updDrainStep false s = s := by simp [updDrainStep, hupd]
      rw [hstep]
      exact h
    · have hstep : updDrainStep false s = s := by simp [updDrainStep, hupd]
      rw [hstep]
      exact h
  · rcases hupd : s.upd2 with _ | _ | _ | _
    · have hstep : updDrainStep true s = s := by simp [updDrainStep, hupd]
      rw [hstep]
      exact h
    · rcases hch : s.chan2 with _ | ⟨d, rest⟩
      · have hstep : updDrainStep true s = { s with upd2 := .updReadyToAck } := by
          simp [updDrainStep, hupd, hch]
        rw [hstep]
        exact { h with
          cons2 := by rintro (hx | hx) <;> simp at hx
          done2 := fun _ => ⟨hch, by
            have hx := h.cons2 (Or.inr hupd)
            rw [hch, List.append_nil] at hx
            exact hx⟩
          updStop2 := fun _ => h.updStop2 (Or.inl hupd)
          ackOne := fun hq => Or.inl ((h.ackOne hq).resolve_right (by rw [hupd]; simp))
          ackBoth := fun hq => absurd (h.ackBoth hq).2 (by rw [hupd]; simp) }
      · have hstep : updDrainStep true s = { s with chan2 := rest, sink2 := s.sink2 ++ [d] } := by
          simp [updDrainStep, hupd, hch]
        rw [hstep]
        exact { h with
          cons2 := fun _ => by
            have hx := h.cons2 (Or.inr hupd)
            rw [hch] at hx
            simpa [List.append_assoc] using hx
          done2 := by rintro (hx | hx) <;> rw [hupd] at hx <;> simp at hx }
    · have hstep : updDrainStep true s = s := by simp [updDrainStep, hupd]
      rw [hstep]
      exact h
    · have hstep : updDrainStep true s = s := by simp [updDrainStep, hupd]
      rw [hstep]
      exact h

theorem ackStep_inv (b1 b2 : List Nat) (second : Bool) (s : ShutdownState)
    (h : ShutdownInv b1 b2 s) : ShutdownInv b1 b2 (ackStep second s) := by
  cases second
  · rcases hupd : s.upd1 with _ | _ | _ | _
    · have hstep : ackStep false s = s := by simp [ackStep, hupd]
      rw [hstep]
      exact h
    · have hstep : ackStep false s = s := by simp [ackStep, hupd]
      rw [hstep]
      exact h
    · rcases hpc : s.pc with _ | _ | _ | _ | _ | _ | _ | _
      case stWaitAck1 =>
        have hss := h.stoppedSet (by rw [hpc]; exact ⟨by simp, by simp⟩)
        have hdone := h.done1 (Or.inl hupd)
        have hstep : ackStep false s = { s with upd1 := .updExited, pc := .stWaitAck2 } := by
          simp [ackStep, hupd, hpc]
        rw [hstep]
        exact { h with
          cons1 := by rintro (hx | hx) <;> simp at hx
          done1 := fun _ => hdone
          pcPending := fun _ => h.pcPending (Or.inr (Or.inl hpc))
          closedPC := fun _ => Or.inr (Or.inl rfl)
          pcClosed := fun _ => h.pcClosed (Or.inl hpc)
          stoppedSet := fun _ => hss
          entryClean := by intro hx; simp at hx
          casLostClean := by intro hx; simp at hx
          updStop1 := fun _ => h.updStop1 (Or.inr (Or.inl hupd))
          ackOne := fun _ => Or.inl rfl
          ackBoth := by intro hx; simp at hx }
      case stWaitAck2 =>
        have hss := h.stoppedSet (by rw [hpc]; exact ⟨by simp, by simp⟩)
        have hdone := h.done1 (Or.inl hupd)
        have hupd2ex : s.upd2 = .updExited :=
          (h.ackOne hpc).resolve_left (by rw [hupd]; simp)
        have hstep : ackStep false s = { s with upd1 := .updExited, pc := .stReturned } := by
          simp [ackStep, hupd, hpc]
        rw [hstep]
        exact { h with
          cons1 := by rintro (hx | hx) <;> simp at hx
          done1 := fun _ => hdone
          pcPending := fun _ => h.pcPending (Or.inr (Or.inr (Or.inl hpc)))
          closedPC := fun _ => Or.inr (Or.inr rfl)
          pcClosed := fun _ => h.pcClosed (Or.inr (Or.inl hpc))
          stoppedSet := fun _ => hss
          entryClean := by intro hx; simp at hx
          casLostClean := by intro hx; simp at hx
          updStop1 := fun _ => h.updStop1 (Or.inr (Or.inl hupd))
          ackOne := by intro hx; simp at hx
          ackBoth := fun _ => ⟨rfl, hupd2ex⟩ }
      all_goals
        (have hstep : ackStep false s = s := by simp [ackStep, hupd, hpc]
         rw [hstep]
         exact h)
    · have hstep : ackStep false s = s := by simp [ackStep, hupd]
      rw [hstep]
      exact h
  · rcases hupd : s.upd2 with _ | _ | _ | _
    · have hstep : ackStep true s = s := by simp [ackStep, hupd]
      rw [hstep]
      exact h
    · have hstep : ackStep true s = s := by simp [ackStep, hupd]
      rw [hstep]
      exact h
    · rcases hpc : s.pc with _ | _ | _ | _ | _ | _ | _ | _
      case stWaitAck1 =>
        have hss := h.stoppedSet (by rw [hpc]; exact ⟨by simp, by simp⟩)
        have hdone := h.done2 (Or.inl hupd)
        have hstep : ackStep true s = { s with upd2 := .updExited, pc := .stWaitAck2 } := by
          simp [ackStep, hupd, hpc]
        rw [hstep]
        exact { h with
          cons2 := by rintro (hx | hx) <;> simp at hx
          done2 := fun _ => hdone
          pcPending := fun _ => h.pcPending (Or.inr (Or.inl hpc))
          closedPC := fun _ => Or.inr (Or.inl rfl)
          pcClosed := fun _ => h.pcClosed (Or.inl hpc)
          stoppedSet := fun _ => hss
          entryClean := by intro hx; simp at hx
          casLostClean := by intro hx; simp at hx
          updStop2 := fun _ => h.updStop2 (Or.inr (Or.inl hupd))
          ackOne := fun _ => Or.inr rfl
          ackBoth := by intro hx; simp at hx }
      case stWaitAck2 =>
        have hss := h.stoppedSet (by rw [hpc]; exact ⟨by simp, by simp⟩)
        have hdone := h.done2 (Or.inl hupd)
        have hupd1ex : s.upd1 = .updExited :=
          (h.ackOne hpc).resolve_right (by rw [hupd]; simp)
        have hstep : ackStep true s = { s with upd2 := .updExited, pc := .stReturned } := by
          simp [ackStep, hupd, hpc]
        rw [hstep]
        exact { h with
          cons2 := by rintro (hx | hx) <;> simp at hx
          done2 := fun _ => hdone
          pcPending := fun _ => h.pcPending (Or.inr (Or.inr (Or.inl hpc)))
          closedPC := fun _ => Or.inr (Or.inr rfl)
          pcClosed := fun _ => h.pcClosed (Or.inr (Or.inl hpc))
          stoppedSet := fun _ => hss
          entryClean := by intro hx; simp at hx
          casLostClean := by intro hx; simp at hx
          updStop2 := fun _ => h.updStop2 (Or.inr (Or.inl hupd))
          ackOne := by intro hx; simp at hx
          ackBoth := fun _ => ⟨hupd1ex, rfl⟩ }
      all_goals
        (have hstep : ackStep true s = s := by simp [ackStep, hupd, hpc]
         rw [hstep]
         exact h)
    · have hstep : ackStep true s = s := by simp [ackStep, hupd]
      rw [hstep]
      exact h

theorem shutdownStep_inv (b1 b2 : List Nat) (a : ShutdownAction) (s : ShutdownState)
    (h : ShutdownInv b1 b2 s) : ShutdownInv b1 b2 (shutdownStep a s) := by
  cases a with
  | driver => exact driverStep_inv b1 b2 s h
  | stopper => exact stopperStep_inv b1 b2 s h
  | updRecv b => exact updRecvStep_inv b1 b2 b s h
  | updSeeStop b => exact updSeeStopStep_inv b1 b2 b s h
  | updDrain b => exact updDrainStep_inv b1 b2 b s h
  | ack b => exact ackStep_inv b1 b2 b s h

theorem shutdownRun_inv (b1 b2 : List Nat) (acts : List ShutdownAction)
    (s : ShutdownState) (h : ShutdownInv b1 b2 s) :
    ShutdownInv b1 b2 (shutdownRun acts s) := by
  induction acts generalizing s with
  | nil => exact h
  | cons a rest ih => exact ih (shutdownStep a s) (shutdownStep_inv b1 b2 a s h)

theorem shutdownStep_scheduled (a : ShutdownAction) (s : ShutdownState) :
    (shutdownStep a s).scheduled = s.scheduled := by
  cases a <;>
    simp only [shutdownStep, driverStep, stopperStep, updRecvStep, updSeeStopStep,
      updDrainStep, ackStep] <;>
    (repeat' split) <;>
    rfl

theorem shutdownRun_scheduled (acts : List ShutdownAction) (s : ShutdownState) :
    (shutdownRun acts s).scheduled = s.scheduled := by
  induction acts generalizing s with
  | nil => rfl
  | cons a rest ih =>
      exact (ih (shutdownStep a s)).trans (shutdownStep_scheduled a s)

theorem shutdownInit_inv (s : ShutdownState) (hinit : ShutdownInit s) :
    ShutdownInv s.chan1 s.chan2 s := by
  obtain ⟨h1, h2, h3, h4, h5, h6, h7, h8, h9, h10, h11⟩ := hinit
  refine
    { cons1 := fun _ => by rw [h7, h9]; simp
      done1 := by rintro (hx | hx) <;> rw [h5] at hx <;> simp at hx
      cons2 := fun _ => by rw [h8, h10]; simp
      done2 := by rintro (hx | hx) <;> rw [h6] at hx <;> simp at hx
      startedPending := ?_
      drvPending := ?_
      donePending := by intro hx; rw [h2] at hx; simp at hx
      pcPending := by rintro (hx | hx | hx | hx) <;> rw [h1] at hx <;> simp at hx
      closedPC := by intro hx; rw [h3] at hx; simp at hx
      pcClosed := by rintro (hx | hx | hx) <;> rw [h1] at hx <;> simp at hx
      stoppedSet := fun hq => absurd h1 hq.1
      entryClean := fun _ => ⟨h4, h3⟩
      casLostClean := by intro hx; rw [h1] at hx; simp at hx
      updStop1 := by rintro (hx | hx | hx) <;> rw [h5] at hx <;> simp at hx
      updStop2 := by rintro (hx | hx | hx) <;> rw [h6] at hx <;> simp at hx
      ackOne := by intro hx; rw [h1] at hx; simp at hx
      ackBoth := by intro hx; rw [h1] at hx; simp at hx }
  · rcases h11 with ⟨ha, _⟩ | ⟨_, _, hc⟩
    · exact fun hq => absurd ha hq
    · exact fun _ => hc
  · rcases h11 with ⟨ha, hb⟩ | ⟨ha, hb, hc⟩
    · exact fun hq => absurd hb hq
    · exact fun _ => ⟨hc, by rw [ha]; simp⟩

/-- C9: `Stop(scheduled)` flips `stopped` from 0 to 1 at most once (an
entry that finds `stopped == 1` moves straight to its return), invokes
`scheduleCancel` when `scheduled` and `stopCancel` otherwise, waits for an
in-flight driver to close `done`, closes `statUpdaterStop` and receives
the two acknowledgements before returning; consequently, in every
interleaved execution that reaches `Stop`'s return, both updaters have
exited, both stat channels are empty, and each sink received exactly the
records buffered at entry plus the driver's accepted (non-dropped)
offers, in order. -/
theorem C9_stop_protocol_drains (acts : List ShutdownAction) (s0 : ShutdownState)
    (hinit : ShutdownInit s0)
    (hret : (shutdownRun acts s0).pc = .stReturned) :
    ((shutdownRun acts s0).stopped = 1 ∧
      (shutdownRun acts s0).cancelChoice = some s0.scheduled) ∧
    (shutdownRun acts s0).stopClosed = true ∧
    ((shutdownRun acts s0).upd1 = .updExited ∧
      (shutdownRun acts s0).upd2 = .updExited) ∧
    ((shutdownRun acts s0).chan1 = [] ∧ (shutdownRun acts s0).chan2 = []) ∧
    ((shutdownRun acts s0).sink1 = s0.chan1 ++ (shutdownRun acts s0).accepted1 ∧
      (shutdownRun acts s0).sink2 = s0.chan2 ++ (shutdownRun acts s0).accepted2) ∧
    (∀ s : ShutdownState, s.pc = .stEntry → s.stopped = 1 →
      stopperStep s = { s with pc := .stCasLost }) := by
  have hinv := shutdownRun_inv s0.chan1 s0.chan2 acts s0 (shutdownInit_inv s0 hinit)
  have hsched : (shutdownRun acts s0).scheduled = s0.scheduled :=
    shutdownRun_scheduled acts s0
  have hne : ¬ (shutdownRun acts s0).pc = .stEntry ∧
      ¬ (shutdownRun acts s0).pc = .stCasLost := by
    rw [hret]
    exact ⟨by simp, by simp⟩
  have hboth := hinv.ackBoth hret
  have hd1 := hinv.done1 (Or.inr hboth.1)
  have hd2 := hinv.done2 (Or.inr hboth.2)
  have hstopped := hinv.stoppedSet hne
  refine ⟨⟨hstopped.1, hsched ▸ hstopped.2⟩,
    hinv.pcClosed (Or.inr (Or.inr hret)), ⟨hboth.1, hboth.2⟩,
    ⟨hd1.1, hd2.1⟩, ⟨hd1.2, hd2.2⟩, ?_⟩
  intro s hpc hstp
  simp [stopperStep, hpc, hstp]

/-- Witness execution for C9: one in-flight driver offer, a scheduled
stop, and a full drain of both channels. -/
def c9s0 : ShutdownState :=
  { scheduled := false, stopped := 0, started := 1, doneClosed := false,
    stopClosed := false, cancelChoice := none, pendingOffers := [(false, 7)],
    drv := .drvOffering, pc := .stEntry, upd1 := .updRunning, upd2 := .updRunning,
    chan1 := [1], chan2 := [], sink1 := [], sink2 := [], accepted1 := [],
    accepted2 := [] }

def c9acts : List ShutdownAction :=
  [.driver, .driver, .stopper, .driver, .stopper, .stopper,
   .updSeeStop false, .updDrain false, .updDrain false, .updDrain false,
   .ack false, .updSeeStop true, .updDrain true, .ack true]

theorem C9_stop_protocol_drains_witness :
    (shutdownRun c9acts c9s0).chan1 = [] ∧ (shutdownRun c9acts c9s0).chan2 = [] ∧
    (shutdownRun c9acts c9s0).sink1 = c9s0.chan1 ++ (shutdownRun c9acts c9s0).accepted1 ∧
    (shutdownRun c9acts c9s0).cancelChoice = some c9s0.scheduled := by
  have h := C9_stop_protocol_drains c9acts c9s0
    ⟨rfl, rfl, rfl, rfl, rfl, rfl, rfl, rfl, rfl, rfl, Or.inl ⟨rfl, rfl⟩⟩ (by decide)
  exact ⟨h.2.2.2.1.1, h.2.2.2.1.2, h.2.2.2.2.1.1, h.1.2⟩

end Easegress
